import Mathlib

/-!
# react-native-godot: a verification development

Shallow embedding of the bridge between the engine runtime and the host
scripting runtime:

* `AndroidThread` (GodotModule.cpp): the engine-thread dispatcher,
* `GodotModule::runOnGodotThread` (GodotModule.cpp),
* `GodotHostObject::godotVariantToJsiValue` / `jsiValueToGodotVariant`
  (NativeGodotModule.cpp): the value bridge,
* `JavascriptCallable` (NativeGodotModule.cpp): host functions as engine callables,
* `GodotModule::get_or_create_instance` and `destroy_instance` (GodotModule.cpp):
  instance creation and destruction,
* `GodotModule::registerWindowUpdateCallback` / `unregisterWindowUpdateCallback`
  (GodotModule.cpp): the window update callbacks,
* `LibGodot` (libgodot_jni.cpp): the window registry, the window-update task and
  the dispatch of touch events.

Definitions come first, theorems follow; each theorem that settles a claim names
the claim (C1, C2, ...) in its doc comment.
-/

namespace RNGodot

/-! ## AndroidThread: the engine-thread dispatcher (GodotModule.cpp, lines 52-167) -/

/-- Command byte `CMD_FUNCTION`: run the next queued task. -/
def CMD_FUNCTION : Nat := 1

/-- Command byte `CMD_EXIT`: leave the looper loop. -/
def CMD_EXIT : Nat := 2

/-- State of `class AndroidThread`: the `tasks` queue, the bytes written to
`function_queue_fd` and not yet read by the looper, and the `quit` flag. -/
structure AndroidThread (τ : Type) where
  tasks : List τ
  pipe : List Nat
  quit : Bool
deriving DecidableEq, Repr

/-- A freshly constructed dispatcher: empty queue, empty pipe, not quitting. -/
def AndroidThread.create (τ : Type) : AndroidThread τ :=
  { tasks := [], pipe := [], quit := false }

/-- Models `AndroidThread::enqueue(f)`.  `ownThread` is the outcome of the test
`thread.get_id() == std::this_thread::get_id()`; `writeOk` tells whether the
`write` of the command byte to the pipe wrote the byte.  The second component
is the task the caller has to run inline right now (`f()` at line 117). -/
def AndroidThread.enqueue {τ : Type} (self : AndroidThread τ) (ownThread : Bool) (f : τ)
    (writeOk : Bool) : AndroidThread τ × Option τ :=
  if ownThread then
    (self, some f)
  else
    let queued : AndroidThread τ := { self with tasks := self.tasks ++ [f] }
    if writeOk then
      ({ queued with pipe := queued.pipe ++ [CMD_FUNCTION] }, none)
    else
      (queued, none)

/-- Models `AndroidThread::looper_callback`.  Reads one command byte from the pipe
(an empty pipe is the `res <= 0` return).  The second component is the task
popped from the queue, which the looper thread runs (`task()` at line 102). -/
def AndroidThread.looper_callback {τ : Type} (self : AndroidThread τ) :
    AndroidThread τ × Option τ :=
  match self.pipe with
  | [] => (self, none)
  | cmd :: rest =>
    let self1 : AndroidThread τ := { self with pipe := rest }
    if cmd = CMD_FUNCTION then
      match self1.tasks with
      | [] => (self1, none)
      | task :: more => ({ self1 with tasks := more }, some task)
    else if cmd = CMD_EXIT then
      ({ self1 with quit := true }, none)
    else
      (self1, none)

/-- How a task reached the dispatcher: through the queue (submitted from
another thread) or inline (submitted from the dispatcher thread itself). -/
inductive Route where
  | queued
  | inline
deriving DecidableEq, Repr

/-- One step of the dispatcher model. -/
inductive DispatcherStep (τ : Type) where
  /-- Call of `enqueue(f)` from a thread other than the dispatcher thread. -/
  | enqueueOther (f : τ) (writeOk : Bool)
  /-- Call of `enqueue(f)` from the dispatcher thread. -/
  | enqueueSelf (f : τ)
  /-- The looper invokes `looper_callback` once. -/
  | process
deriving DecidableEq, Repr

/-- Dispatcher state together with two logs: the tasks handed to `enqueue`, in
submission order, and the tasks whose execution has begun, in execution order. -/
structure DispatcherRun (τ : Type) where
  thread : AndroidThread τ
  submitted : List (Route × τ)
  executed : List (Route × τ)
deriving DecidableEq, Repr

/-- Initial state of the model: fresh dispatcher, empty logs. -/
def DispatcherRun.start (τ : Type) : DispatcherRun τ :=
  { thread := AndroidThread.create τ, submitted := [], executed := [] }

/-- Effect of one step on the dispatcher and on the logs. -/
def DispatcherRun.step {τ : Type} (s : DispatcherRun τ) : DispatcherStep τ → DispatcherRun τ
  | .enqueueOther f writeOk =>
    { s with thread := (s.thread.enqueue false f writeOk).1,
             submitted := s.submitted ++ [(Route.queued, f)] }
  | .enqueueSelf f =>
    match s.thread.enqueue true f true with
    | (th, some g) =>
      { thread := th, submitted := s.submitted ++ [(Route.inline, f)],
        executed := s.executed ++ [(Route.inline, g)] }
    | (th, none) =>
      { s with thread := th, submitted := s.submitted ++ [(Route.inline, f)] }
  | .process =>
    match s.thread.looper_callback with
    | (th, some g) => { s with thread := th, executed := s.executed ++ [(Route.queued, g)] }
    | (th, none) => { s with thread := th }

/-- Runs a finite sequence of steps. -/
def DispatcherRun.run {τ : Type} (s : DispatcherRun τ) (steps : List (DispatcherStep τ)) :
    DispatcherRun τ :=
  steps.foldl DispatcherRun.step s

/-- The tasks of a log that took the given route, in log order. -/
def tasksVia {τ : Type} (r : Route) (log : List (Route × τ)) : List τ :=
  (log.filter (fun e => decide (e.1 = r))).map Prod.snd

/-- The tasks of a log, in log order, whatever their route. -/
def tasksOf {τ : Type} (log : List (Route × τ)) : List τ :=
  log.map Prod.snd

/-! ## GodotModule::runOnGodotThread (GodotModule.cpp, lines 633-653) -/

/-- Thread identifiers. -/
abbrev ThreadId := Nat

/-- Result of `lock()` on a `std::mutex` (non-recursive): the caller acquires
it, or has to wait for another owner, or already owns it.  The last case is
undefined behaviour for `std::mutex`; in practice the thread waits for itself. -/
inductive LockAttempt where
  | acquired
  | waitsForOther
  | alreadyOwned
deriving DecidableEq, Repr

/-- Locking a `std::mutex` whose current owner is `owner`, from thread `caller`. -/
def std_mutex_lock (owner : Option ThreadId) (caller : ThreadId) : LockAttempt :=
  match owner with
  | none => LockAttempt.acquired
  | some t => if t = caller then LockAttempt.alreadyOwned else LockAttempt.waitsForOther

/-- The closures handed to the dispatcher by `runOnGodotThread`: the task `f`
itself (`wait == false`) or the wrapper `runFunc` built around it at lines
638-644 (`wait == true`).  Tasks are named by a number. -/
inductive GodotTask where
  | plain (f : Nat)
  | runFunc (f : Nat)
deriving DecidableEq, Repr

/-- What one `runOnGodotThread` call touches: the dispatcher, the log of user
tasks that ran, and the locals `waitMutex` (its owner), `ready`, and the number
of `notify_one` calls on `waitVar`. -/
structure WaitState where
  thread : AndroidThread GodotTask
  ran : List Nat
  waitMutex : Option ThreadId
  ready : Bool
  notified : Nat
deriving DecidableEq, Repr

/-- How control leaves a piece of code on the executing thread. -/
inductive Outcome where
  /-- The code ran to its end and returned. -/
  | returned
  /-- The thread is parked in `waitVar.wait` until the dispatcher signals. -/
  | waitingForSignal
  /-- The thread is parked in `lock()` on a mutex some other thread holds. -/
  | waitingForMutex
  /-- The thread called `lock()` on a `std::mutex` it already holds. -/
  | selfDeadlock
deriving DecidableEq, Repr

/-- Runs one closure on thread `executor`.  `plain f` runs `f`.  `runFunc f`
is the lambda of lines 638-644: `f()`, then lock `waitMutex`, set `ready`,
unlock, `notify_one`. -/
def GodotTask.invoke (executor : ThreadId) (t : GodotTask) (s : WaitState) :
    Outcome × WaitState :=
  match t with
  | .plain f => (Outcome.returned, { s with ran := s.ran ++ [f] })
  | .runFunc f =>
    let s1 : WaitState := { s with ran := s.ran ++ [f] }
    match std_mutex_lock s1.waitMutex executor with
    | .alreadyOwned => (Outcome.selfDeadlock, s1)
    | .waitsForOther => (Outcome.waitingForMutex, s1)
    | .acquired =>
      (Outcome.returned, { s1 with ready := true, waitMutex := none, notified := s1.notified + 1 })

/-- Models `GodotModule::runOnGodotThread(f, wait)` called on thread `caller`,
where `dispatcher` is the thread of `data->thread`.  With `wait` the caller
first takes the fresh local `waitMutex` (line 645), hands `runFunc` to
`enqueue` (line 647) and then waits on `waitVar` until `ready` (line 648). -/
def runOnGodotThread (caller dispatcher : ThreadId) (f : Nat) (wait : Bool) (writeOk : Bool)
    (s : WaitState) : Outcome × WaitState :=
  if wait then
    let s1 : WaitState := { s with waitMutex := some caller, ready := false }
    match s1.thread.enqueue (decide (dispatcher = caller)) (GodotTask.runFunc f) writeOk with
    | (th, some t) =>
      match t.invoke caller { s1 with thread := th } with
      | (Outcome.returned, s2) =>
        if s2.ready then (Outcome.returned, { s2 with waitMutex := none })
        else (Outcome.waitingForSignal, { s2 with waitMutex := none })
      | (o, s2) => (o, s2)
    | (th, none) =>
      (Outcome.waitingForSignal, { s1 with thread := th, waitMutex := none })
  else
    match s.thread.enqueue (decide (dispatcher = caller)) (GodotTask.plain f) writeOk with
    | (th, some t) => t.invoke caller { s with thread := th }
    | (th, none) => (Outcome.returned, { s with thread := th })

/-- A state in which no `runOnGodotThread` call is in progress. -/
def WaitState.idle : WaitState :=
  { thread := AndroidThread.create GodotTask, ran := [], waitMutex := none, ready := false,
    notified := 0 }

/-! ## The value bridge (NativeGodotModule.cpp, lines 245-373)

Engine values are `godot::Variant`, host values are `jsi::Value`.  Both types
are declared outside the repository; they are modelled with the categories and
payloads the two conversion functions distinguish. -/

/-- An IEEE-754 binary64 value, given by its 64-bit pattern. -/
structure Double where
  bits : Nat
deriving DecidableEq, Repr

/-- Position of the highest set bit of `m`, searched over `fuel` bits. -/
def highBit : Nat → Nat → Nat
  | 0, _ => 0
  | fuel + 1, m => if m < 2 then 0 else highBit fuel (m / 2) + 1

/-- Biased exponent and fraction field of the binary64 value nearest to the
positive integer `m` (ties to even). -/
def Double.fieldsOfNat (m : Nat) : Nat × Nat :=
  let e : Nat := highBit 64 m
  if e ≤ 52 then (e + 1023, m * 2 ^ (52 - e) - 2 ^ 52)
  else
    let sh := e - 52
    let q := m / 2 ^ sh
    let r := m % 2 ^ sh
    let half := 2 ^ (sh - 1)
    let q1 := if half < r ∨ (r = half ∧ q % 2 = 1) then q + 1 else q
    if q1 = 2 ^ 53 then (e + 1 + 1023, 0) else (e + 1023, q1 - 2 ^ 52)

/-- The C++ conversion `(double)i` of a 64-bit signed integer: the nearest
binary64 value, ties to even. -/
def Double.ofInt64 (n : Int) : Double :=
  if n = 0 then ⟨0⟩
  else
    let sign : Nat := if n < 0 then 1 else 0
    let ef := Double.fieldsOfNat n.natAbs
    ⟨sign * 2 ^ 63 + ef.1 * 2 ^ 52 + ef.2⟩

/-- Magnitude of the integer part of a binary64 value with biased exponent
`e` and fraction field `frac` (zero for subnormal values). -/
def Double.magnitudeOf (e frac : Nat) : Nat :=
  if e = 0 then 0
  else if 1075 ≤ e then (2 ^ 52 + frac) * 2 ^ (e - 1075)
  else (2 ^ 52 + frac) / 2 ^ (1075 - e)

/-- The integer part of a binary64 value. -/
def Double.toInt (d : Double) : Int :=
  let mag := Double.magnitudeOf (d.bits / 2 ^ 52 % 2 ^ 11) (d.bits % 2 ^ 52)
  if d.bits / 2 ^ 63 = 1 then - (mag : Int) else (mag : Int)

/-- Truncation of an integer to a signed 64-bit value (`BigInt::getInt64`). -/
def wrapInt64 (i : Int) : Int :=
  (i + 2 ^ 63) % 2 ^ 64 - 2 ^ 63

/-- UTF-8 bytes of one code point. -/
def utf8EncodeChar (c : Nat) : List Nat :=
  if c < 0x80 then [c]
  else if c < 0x800 then [0xC0 + c / 64, 0x80 + c % 64]
  else if c < 0x10000 then [0xE0 + c / 4096, 0x80 + c / 64 % 64, 0x80 + c % 64]
  else [0xF0 + c / 262144 % 8, 0x80 + c / 4096 % 64, 0x80 + c / 64 % 64, 0x80 + c % 64]

/-- UTF-8 bytes of a sequence of code points (`String::utf8()`,
`StringName::to_utf8_buffer()`, `jsi::String::utf8`). -/
def utf8Encode : List Nat → List Nat
  | [] => []
  | c :: cs => utf8EncodeChar c ++ utf8Encode cs

/-- State of the UTF-8 decoder: code points decoded so far, the code point
being assembled, and the number of continuation bytes it still needs. -/
structure Utf8Decoder where
  out : List Nat
  acc : Nat
  need : Nat
deriving DecidableEq, Repr

/-- Decoder step for a byte that starts a sequence. -/
def Utf8Decoder.lead (st : Utf8Decoder) (b : Nat) : Utf8Decoder :=
  if b < 0x80 then { out := st.out ++ [b], acc := 0, need := 0 }
  else if 0xC0 ≤ b ∧ b < 0xE0 then { out := st.out, acc := b - 0xC0, need := 1 }
  else if 0xE0 ≤ b ∧ b < 0xF0 then { out := st.out, acc := b - 0xE0, need := 2 }
  else if 0xF0 ≤ b ∧ b < 0xF8 then { out := st.out, acc := b - 0xF0, need := 3 }
  else { out := st.out ++ [0xFFFD], acc := 0, need := 0 }

/-- Decoder step for any byte.  A sequence that is broken off yields U+FFFD. -/
def Utf8Decoder.feed (st : Utf8Decoder) (b : Nat) : Utf8Decoder :=
  if st.need = 0 then st.lead b
  else if 0x80 ≤ b ∧ b < 0xC0 then
    let acc := st.acc * 64 + (b - 0x80)
    if st.need = 1 then { out := st.out ++ [acc], acc := 0, need := 0 }
    else { out := st.out, acc := acc, need := st.need - 1 }
  else
    Utf8Decoder.lead { out := st.out ++ [0xFFFD], acc := 0, need := 0 } b

/-- Decodes UTF-8 bytes to code points; malformed or truncated sequences
decode to U+FFFD (`jsi::String::createFromUtf8`, `godot::String::utf8`). -/
def utf8Decode (bytes : List Nat) : List Nat :=
  let st := bytes.foldl Utf8Decoder.feed { out := [], acc := 0, need := 0 }
  if st.need = 0 then st.out else st.out ++ [0xFFFD]

/-- The bytes of a C string: everything before the first NUL (`c_str()` read
by a function that takes a `const char *`). -/
def c_str (bytes : List Nat) : List Nat :=
  bytes.takeWhile (fun b => decide (b ≠ 0))

/-- A `RNWorklet::JsiWorkletContext`: its identity, the host JS runtime it was
created for (`getJsRuntime()`) and its own worklet runtime
(`getWorkletRuntime()`). -/
structure JsiWorkletContext where
  id : Nat
  jsRuntime : Nat
  workletRuntime : Nat
deriving DecidableEq, Repr

/-- What the code inspects of the `jsi::Value _funcValue` held by a
`JavascriptCallable`: a function object with an identity, an object that is
not a function, or a value that is not an object. -/
inductive FuncValue where
  | function (id : Nat)
  | otherObject (id : Nat)
  | notObject
deriving DecidableEq, Repr

/-- Fields of `class JavascriptCallable`.  `_workletContext` is a
`std::weak_ptr`; whether its target is still alive is a property of the
world, passed separately (`live`). -/
structure JavascriptCallable where
  _workletContext : JsiWorkletContext
  _isWorklet : Bool
  _funcValue : FuncValue
deriving DecidableEq, Repr

/-- Constructor `JavascriptCallable(workletContext, rt, func)` (lines 129-132). -/
def JavascriptCallable.create (workletContext : JsiWorkletContext) (rt : Nat) (func : Nat) :
    JavascriptCallable :=
  { _workletContext := workletContext,
    _funcValue := FuncValue.function func,
    _isWorklet := decide (workletContext.jsRuntime ≠ rt) }

/-- The two `godot::CallableCustom` subclasses of the repository. -/
inductive CallableCustom where
  | javascript (jc : JavascriptCallable)
  | cpp (id : Nat)
deriving DecidableEq, Repr

/-- Payload of a `CALLABLE` engine value: an engine-side callable or a custom one. -/
inductive Callable where
  | native (data : Nat)
  | custom (c : CallableCustom)
deriving DecidableEq, Repr

/-- Categories of engine values, `godot::Variant::Type`. -/
inductive VariantType where
  | NIL | BOOL | INT | FLOAT | STRING
  | VECTOR2 | VECTOR2I | RECT2 | RECT2I | VECTOR3 | VECTOR3I | TRANSFORM2D
  | VECTOR4 | VECTOR4I | PLANE | QUATERNION | AABB | BASIS | TRANSFORM3D | PROJECTION
  | COLOR | STRING_NAME | NODE_PATH | RID | OBJECT | CALLABLE | SIGNAL | DICTIONARY | ARRAY
  | PACKED_BYTE_ARRAY | PACKED_INT32_ARRAY | PACKED_INT64_ARRAY | PACKED_FLOAT32_ARRAY
  | PACKED_FLOAT64_ARRAY | PACKED_STRING_ARRAY | PACKED_VECTOR2_ARRAY | PACKED_VECTOR3_ARRAY
  | PACKED_COLOR_ARRAY | PACKED_VECTOR4_ARRAY
  | VARIANT_MAX
deriving DecidableEq, Repr

/-- An engine value, `godot::Variant`.  Text is a sequence of code points; an
`OBJECT` holds an object pointer (0 is the null pointer); the categories whose
content the bridge never inspects carry it as a number.  `OTHER` stands for a
value whose category is none of those named in the dispatch. -/
inductive Variant where
  | NIL
  | BOOL (b : Bool)
  | INT (i : Int)
  | FLOAT (d : Double)
  | STRING (s : List Nat)
  | VECTOR2 (data : Nat) | VECTOR2I (data : Nat) | RECT2 (data : Nat) | RECT2I (data : Nat)
  | VECTOR3 (data : Nat) | VECTOR3I (data : Nat) | TRANSFORM2D (data : Nat)
  | VECTOR4 (data : Nat) | VECTOR4I (data : Nat) | PLANE (data : Nat) | QUATERNION (data : Nat)
  | AABB (data : Nat) | BASIS (data : Nat) | TRANSFORM3D (data : Nat) | PROJECTION (data : Nat)
  | COLOR (data : Nat)
  | STRING_NAME (s : List Nat)
  | NODE_PATH (data : Nat) | RID (data : Nat)
  | OBJECT (ptr : Nat)
  | CALLABLE (c : Callable)
  | SIGNAL (data : Nat) | DICTIONARY (data : Nat) | ARRAY (data : Nat)
  | PACKED_BYTE_ARRAY (data : Nat) | PACKED_INT32_ARRAY (data : Nat)
  | PACKED_INT64_ARRAY (data : Nat) | PACKED_FLOAT32_ARRAY (data : Nat)
  | PACKED_FLOAT64_ARRAY (data : Nat) | PACKED_STRING_ARRAY (data : Nat)
  | PACKED_VECTOR2_ARRAY (data : Nat) | PACKED_VECTOR3_ARRAY (data : Nat)
  | PACKED_COLOR_ARRAY (data : Nat) | PACKED_VECTOR4_ARRAY (data : Nat)
  | OTHER (data : Nat)
deriving DecidableEq, Repr

/-- Category of an engine value, `Variant::get_type()`. -/
def Variant.get_type : Variant → VariantType
  | .NIL => .NIL
  | .BOOL _ => .BOOL
  | .INT _ => .INT
  | .FLOAT _ => .FLOAT
  | .STRING _ => .STRING
  | .VECTOR2 _ => .VECTOR2
  | .VECTOR2I _ => .VECTOR2I
  | .RECT2 _ => .RECT2
  | .RECT2I _ => .RECT2I
  | .VECTOR3 _ => .VECTOR3
  | .VECTOR3I _ => .VECTOR3I
  | .TRANSFORM2D _ => .TRANSFORM2D
  | .VECTOR4 _ => .VECTOR4
  | .VECTOR4I _ => .VECTOR4I
  | .PLANE _ => .PLANE
  | .QUATERNION _ => .QUATERNION
  | .AABB _ => .AABB
  | .BASIS _ => .BASIS
  | .TRANSFORM3D _ => .TRANSFORM3D
  | .PROJECTION _ => .PROJECTION
  | .COLOR _ => .COLOR
  | .STRING_NAME _ => .STRING_NAME
  | .NODE_PATH _ => .NODE_PATH
  | .RID _ => .RID
  | .OBJECT _ => .OBJECT
  | .CALLABLE _ => .CALLABLE
  | .SIGNAL _ => .SIGNAL
  | .DICTIONARY _ => .DICTIONARY
  | .ARRAY _ => .ARRAY
  | .PACKED_BYTE_ARRAY _ => .PACKED_BYTE_ARRAY
  | .PACKED_INT32_ARRAY _ => .PACKED_INT32_ARRAY
  | .PACKED_INT64_ARRAY _ => .PACKED_INT64_ARRAY
  | .PACKED_FLOAT32_ARRAY _ => .PACKED_FLOAT32_ARRAY
  | .PACKED_FLOAT64_ARRAY _ => .PACKED_FLOAT64_ARRAY
  | .PACKED_STRING_ARRAY _ => .PACKED_STRING_ARRAY
  | .PACKED_VECTOR2_ARRAY _ => .PACKED_VECTOR2_ARRAY
  | .PACKED_VECTOR3_ARRAY _ => .PACKED_VECTOR3_ARRAY
  | .PACKED_COLOR_ARRAY _ => .PACKED_COLOR_ARRAY
  | .PACKED_VECTOR4_ARRAY _ => .PACKED_VECTOR4_ARRAY
  | .OTHER _ => .VARIANT_MAX

/-- A host object, `jsi::Object`, as far as `jsiValueToGodotVariant` tells
objects apart: a `GodotHostObject` (with its `_workletContext` and `_value`),
a function, an array, an array buffer, or any other object. -/
inductive JsiObject where
  | hostObject (_workletContext : JsiWorkletContext) (_value : Variant)
  | function (id : Nat)
  | array (id : Nat)
  | arrayBuffer (id : Nat)
  | plain (id : Nat)
deriving DecidableEq, Repr

/-- A host value, `jsi::Value`.  A host string is its sequence of code points. -/
inductive JsiValue where
  | undefined
  | null
  | bool (b : Bool)
  | number (d : Double)
  | string (s : List Nat)
  | bigint (i : Int)
  | symbol (id : Nat)
  | object (o : JsiObject)
deriving DecidableEq, Repr

/-- Equality of conversion results is decidable. -/
instance instDecidableEqExcept {ε α : Type} [DecidableEq ε] [DecidableEq α] :
    DecidableEq (Except ε α)
  | .ok a, .ok b =>
    if h : a = b then isTrue (by rw [h]) else isFalse (fun h2 => h (Except.ok.inj h2))
  | .error a, .error b =>
    if h : a = b then isTrue (by rw [h]) else isFalse (fun h2 => h (Except.error.inj h2))
  | .ok _, .error _ => isFalse (fun h => Except.noConfusion h)
  | .error _, .ok _ => isFalse (fun h => Except.noConfusion h)

/-- Models `jsi::String::createFromUtf8(rt, data, length)`: decodes the first
`length` bytes found at `data`. -/
def createFromUtf8 (data : List Nat) (length : Nat) : List Nat :=
  utf8Decode (data.take length)

/-- Models `GodotHostObject::jsiValueToGodotVariant(workletContext, rt, value)`
(lines 250-287).  A thrown `jsi::JSINativeException` is an `Except.error`
with its message. -/
def jsiValueToGodotVariant (workletContext : JsiWorkletContext) (rt : Nat) :
    JsiValue → Except String Variant
  | .null => .ok Variant.NIL
  | .undefined => .ok Variant.NIL
  | .bool b => .ok (Variant.BOOL b)
  | .number d => .ok (Variant.FLOAT d)
  | .string s => .ok (Variant.STRING (utf8Decode (c_str (utf8Encode s))))
  | .bigint i => .ok (Variant.INT (wrapInt64 i))
  | .object (.hostObject _ value) => .ok value
  | .object (.function id) =>
    .ok (Variant.CALLABLE (Callable.custom
      (CallableCustom.javascript (JavascriptCallable.create workletContext rt id))))
  | .object (.array _) => .error "JavaScript Array binding not yet supported"
  | .object (.arrayBuffer _) => .error "JavaScript ArrayBuffer binding not yet supported"
  | .object (.plain _) => .error "JavaScript Object binding not yet supported"
  | .symbol _ => .error "Unhandled Object Type"

/-- Models `GodotHostObject::godotVariantToJsiValue(workletContext, rt, variant)`
(lines 289-373), one alternative per `case` label of the `switch`.  The text
cases pass the UTF-8 buffer together with `length()`, the number of code
points, as the byte count (lines 307 and 335). -/
def godotVariantToJsiValue (workletContext : JsiWorkletContext) (_rt : Nat) :
    Variant → Except String JsiValue
  | .NIL => .ok JsiValue.null
  | .BOOL b => .ok (JsiValue.bool b)
  | .INT i => .ok (JsiValue.number (Double.ofInt64 i))
  | .FLOAT d => .ok (JsiValue.number d)
  | .STRING s => .ok (JsiValue.string (createFromUtf8 (utf8Encode s) s.length))
  | .VECTOR2 x => .ok (.object (.hostObject workletContext (.VECTOR2 x)))
  | .VECTOR2I x => .ok (.object (.hostObject workletContext (.VECTOR2I x)))
  | .RECT2 x => .ok (.object (.hostObject workletContext (.RECT2 x)))
  | .RECT2I x => .ok (.object (.hostObject workletContext (.RECT2I x)))
  | .VECTOR3 x => .ok (.object (.hostObject workletContext (.VECTOR3 x)))
  | .VECTOR3I x => .ok (.object (.hostObject workletContext (.VECTOR3I x)))
  | .TRANSFORM2D x => .ok (.object (.hostObject workletContext (.TRANSFORM2D x)))
  | .VECTOR4 x => .ok (.object (.hostObject workletContext (.VECTOR4 x)))
  | .VECTOR4I x => .ok (.object (.hostObject workletContext (.VECTOR4I x)))
  | .PLANE x => .ok (.object (.hostObject workletContext (.PLANE x)))
  | .QUATERNION x => .ok (.object (.hostObject workletContext (.QUATERNION x)))
  | .AABB x => .ok (.object (.hostObject workletContext (.AABB x)))
  | .BASIS x => .ok (.object (.hostObject workletContext (.BASIS x)))
  | .TRANSFORM3D x => .ok (.object (.hostObject workletContext (.TRANSFORM3D x)))
  | .PROJECTION x => .ok (.object (.hostObject workletContext (.PROJECTION x)))
  | .COLOR x => .ok (.object (.hostObject workletContext (.COLOR x)))
  | .STRING_NAME sn => .ok (JsiValue.string (createFromUtf8 (utf8Encode sn) sn.length))
  | .NODE_PATH x => .ok (.object (.hostObject workletContext (.NODE_PATH x)))
  | .RID x => .ok (.object (.hostObject workletContext (.RID x)))
  | .OBJECT vo =>
    if vo = 0 then .ok JsiValue.null
    else .ok (.object (.hostObject workletContext (.OBJECT vo)))
  | .CALLABLE c => .ok (.object (.hostObject workletContext (.CALLABLE c)))
  | .SIGNAL x => .ok (.object (.hostObject workletContext (.SIGNAL x)))
  | .DICTIONARY x => .ok (.object (.hostObject workletContext (.DICTIONARY x)))
  | .ARRAY _ => .error "Arrays not supported yet."
  | .PACKED_BYTE_ARRAY _ => .error "Packed Arrays not supported yet."
  | .PACKED_INT32_ARRAY _ => .error "Packed Arrays not supported yet."
  | .PACKED_INT64_ARRAY _ => .error "Packed Arrays not supported yet."
  | .PACKED_FLOAT32_ARRAY _ => .error "Packed Arrays not supported yet."
  | .PACKED_FLOAT64_ARRAY _ => .error "Packed Arrays not supported yet."
  | .PACKED_STRING_ARRAY _ => .error "Packed Arrays not supported yet."
  | .PACKED_VECTOR2_ARRAY _ => .error "Packed Arrays not supported yet."
  | .PACKED_VECTOR3_ARRAY _ => .error "Packed Arrays not supported yet."
  | .PACKED_COLOR_ARRAY _ => .error "Packed Arrays not supported yet."
  | .PACKED_VECTOR4_ARRAY _ => .error "Packed Arrays not supported yet."
  | .OTHER _ => .error "Unhandled Object Type"

/-- Engine value to host value and back. -/
def roundTrip (workletContext : JsiWorkletContext) (rt : Nat) (v : Variant) :
    Except String Variant :=
  match godotVariantToJsiValue workletContext rt v with
  | .ok j => jsiValueToGodotVariant workletContext rt j
  | .error e => .error e

/-- The ten packed-array categories. -/
def VariantType.isPackedArray : VariantType → Bool
  | .PACKED_BYTE_ARRAY | .PACKED_INT32_ARRAY | .PACKED_INT64_ARRAY | .PACKED_FLOAT32_ARRAY
  | .PACKED_FLOAT64_ARRAY | .PACKED_STRING_ARRAY | .PACKED_VECTOR2_ARRAY
  | .PACKED_VECTOR3_ARRAY | .PACKED_COLOR_ARRAY | .PACKED_VECTOR4_ARRAY => true
  | _ => false

/-- The categories named by a `case` label of the dispatch in
`godotVariantToJsiValue`: all but `VARIANT_MAX`. -/
def VariantType.isListed : VariantType → Bool
  | .VARIANT_MAX => false
  | _ => true

/-- The math and geometric aggregate categories (lines 312-326). -/
def VariantType.isMath : VariantType → Bool
  | .VECTOR2 | .VECTOR2I | .RECT2 | .RECT2I | .VECTOR3 | .VECTOR3I | .TRANSFORM2D
  | .VECTOR4 | .VECTOR4I | .PLANE | .QUATERNION | .AABB | .BASIS | .TRANSFORM3D
  | .PROJECTION => true
  | _ => false

/-- An engine value that the bridge hands to the host as a proxy object: a
math or geometric aggregate, `COLOR`, `NODE_PATH`, `RID`, a non-null `OBJECT`,
`CALLABLE`, `SIGNAL` or `DICTIONARY`. -/
def Variant.isProxied (v : Variant) : Bool :=
  match v with
  | .OBJECT ptr => decide (ptr ≠ 0)
  | _ =>
    v.get_type.isMath || decide (v.get_type = .COLOR) || decide (v.get_type = .NODE_PATH)
      || decide (v.get_type = .RID) || decide (v.get_type = .CALLABLE)
      || decide (v.get_type = .SIGNAL) || decide (v.get_type = .DICTIONARY)

/-! ## JavascriptCallable (NativeGodotModule.cpp, lines 87-239 and 570-612) -/

/-- The text every `JavascriptCallable` answers from `get_as_text()`. -/
def JAVASCRIPT_CALLABLE_NAME : String := "JavascriptCallable"

/-- Models `get_as_text()` of the two custom callables. -/
def CallableCustom.get_as_text : CallableCustom → String
  | .javascript _ => JAVASCRIPT_CALLABLE_NAME
  | .cpp _ => "CPPCallable"

/-- A non-null `const CallableCustom *`: an address and the object found there. -/
structure CallableCustomPtr where
  addr : Nat
  obj : CallableCustom
deriving DecidableEq, Repr

/-- Models `std::weak_ptr::lock()`: the context when it is still alive
(`live` tells which contexts are), null otherwise. -/
def weak_lock (live : Nat → Bool) (wc : JsiWorkletContext) : Option JsiWorkletContext :=
  if live wc.id then some wc else none

/-- The two execution lanes of a worklet context. -/
inductive Lane where
  | workletThread
  | jsThread
deriving DecidableEq, Repr

/-- Result of `runInContext`: the value it returns, the state left by the
function it ran, and the lanes work was dispatched to. -/
structure ContextRun (σ : Type) where
  err : Bool
  state : σ
  dispatched : List Lane

/-- Models `JavascriptCallable::runInContext(c, func)` (lines 93-126): returns
false when the context is gone; otherwise `func` runs on the worklet thread
(with the worklet runtime) or on the JS thread (with the JS runtime),
according to `_isWorklet`, and the caller waits for it. -/
def JavascriptCallable.runInContext {σ : Type} (live : Nat → Bool) (c : JavascriptCallable)
    (func : JavascriptCallable → Nat → σ → Bool × σ) (st : σ) : ContextRun σ :=
  match weak_lock live c._workletContext with
  | none => { err := false, state := st, dispatched := [] }
  | some wc =>
    if c._isWorklet then
      let r := func c wc.workletRuntime st
      { err := r.1, state := r.2, dispatched := [Lane.workletThread] }
    else
      let r := func c wc.jsRuntime st
      { err := r.1, state := r.2, dispatched := [Lane.jsThread] }

/-- The lambda run by the compare-equal function (lines 186-220): `result`
becomes the strict equality of the two function objects, or false when one
of the two values is not a function object. -/
def compareFuncValues (j_a j_b : JavascriptCallable) (_c : JavascriptCallable) (_rt : Nat)
    (_result : Bool) : Bool × Bool :=
  match j_a._funcValue with
  | .notObject => (false, false)
  | .otherObject _ => (false, false)
  | .function a_funcRef =>
    match j_b._funcValue with
    | .notObject => (false, false)
    | .otherObject _ => (false, false)
    | .function b_funcRef => (true, decide (a_funcRef = b_funcRef))

/-- Models the function returned by `JavascriptCallable::get_compare_equal_func()`
(lines 141-223).  A null pointer is `none`.  Line 173 locks the context of
`j_a` a second time to obtain `j_b_wc`. -/
def JavascriptCallable.compare_equal (live : Nat → Bool)
    (p_a p_b : Option CallableCustomPtr) : Bool :=
  match p_a with
  | none => false
  | some a =>
    match p_b with
    | none => false
    | some b =>
      if a.obj.get_as_text ≠ JAVASCRIPT_CALLABLE_NAME then false
      else if b.obj.get_as_text ≠ JAVASCRIPT_CALLABLE_NAME then false
      else if a.addr = b.addr then true
      else
        match a.obj, b.obj with
        | .javascript j_a, .javascript j_b =>
          if j_a._isWorklet ≠ j_b._isWorklet then false
          else
            match weak_lock live j_a._workletContext with
            | none => false
            | some j_a_wc =>
              match weak_lock live j_a._workletContext with
              | none => false
              | some j_b_wc =>
                if j_a_wc ≠ j_b_wc then false
                else (j_a.runInContext live (compareFuncValues j_a j_b) false).state
        | _, _ => false

/-- Error codes of `GDExtensionCallError::error`. -/
inductive GDExtensionCallErrorType where
  | CALL_OK
  | CALL_ERROR_INVALID_METHOD
  | CALL_ERROR_INVALID_ARGUMENT
  | CALL_ERROR_TOO_MANY_ARGUMENTS
  | CALL_ERROR_TOO_FEW_ARGUMENTS
  | CALL_ERROR_INSTANCE_IS_NULL
  | CALL_ERROR_METHOD_NOT_CONST
  /-- Any value of the C enumeration other than the seven named ones. -/
  | CALL_ERROR_OTHER (code : Int)
deriving DecidableEq, Repr

/-- The struct `GDExtensionCallError`. -/
structure GDExtensionCallError where
  error : GDExtensionCallErrorType
  argument : Int
  expected : Int
deriving DecidableEq, Repr

/-- What `JavascriptCallable::call` can change: the two out-parameters, the
log of host function invocations (function and arguments), and the message
of an exception that escaped the conversion or the host function. -/
structure CallState where
  r_return_value : Variant
  r_call_error : GDExtensionCallError
  hostCalls : List (Nat × List JsiValue)
  thrown : Option String
deriving DecidableEq, Repr

/-- Converts the arguments one after the other (the loop of lines 602-604);
the first failing conversion ends the loop. -/
def convertArguments (wc : JsiWorkletContext) (rt : Nat) :
    List Variant → Except String (List JsiValue)
  | [] => .ok []
  | v :: vs =>
    match godotVariantToJsiValue wc rt v with
    | .error e => .error e
    | .ok j =>
      match convertArguments wc rt vs with
      | .error e => .error e
      | .ok js => .ok (j :: js)

/-- Sets `r_call_error.error`. -/
def CallState.setError (st : CallState) (e : GDExtensionCallErrorType) : CallState :=
  { st with r_call_error := { st.r_call_error with error := e } }

/-- The lambda `caller` of `JavascriptCallable::call` (lines 578-610).
`hostFunction id args` is what the host function `id` does when called. -/
def JavascriptCallable.caller (live : Nat → Bool)
    (hostFunction : Nat → List JsiValue → Except String JsiValue)
    (p_arguments : List Variant) (c : JavascriptCallable) (rt : Nat) (st : CallState) :
    Bool × CallState :=
  match weak_lock live c._workletContext with
  | none => (false, st.setError .CALL_ERROR_INVALID_METHOD)
  | some wc =>
    match c._funcValue with
    | .notObject => (false, st.setError .CALL_ERROR_INVALID_METHOD)
    | .otherObject _ => (false, st.setError .CALL_ERROR_INVALID_METHOD)
    | .function func =>
      match convertArguments wc rt p_arguments with
      | .error e => (false, { st with thrown := some e })
      | .ok args =>
        let st1 : CallState := { st with hostCalls := st.hostCalls ++ [(func, args)] }
        match hostFunction func args with
        | .error e => (false, { st1 with thrown := some e })
        | .ok ret =>
          match jsiValueToGodotVariant wc rt ret with
          | .error e => (false, { st1 with thrown := some e })
          | .ok v => (true, { st1 with r_return_value := v }.setError .CALL_OK)

/-- Models `JavascriptCallable::call` (lines 570-612): the final state and
the lanes work was dispatched to. -/
def JavascriptCallable.call (live : Nat → Bool)
    (hostFunction : Nat → List JsiValue → Except String JsiValue)
    (self : JavascriptCallable) (p_arguments : List Variant) (st : CallState) :
    CallState × List Lane :=
  match weak_lock live self._workletContext with
  | none => (st.setError .CALL_ERROR_INVALID_METHOD, [])
  | some _ =>
    let r := self.runInContext live (JavascriptCallable.caller live hostFunction p_arguments) st
    (r.state, r.dispatched)

/-! ## GodotModule: instance creation (GodotModule.cpp, lines 169-368) -/

/-- The struct `WindowFuncData`: a handler and the retained observer reference. -/
structure WindowFuncData where
  func : Nat
  ref : Nat
deriving DecidableEq, Repr

/-- The data fields of `struct AndroidPlatformData`.  Pointers are `Option`s
(`none` is `nullptr`); the two maps are association lists. -/
structure AndroidPlatformData where
  mainNativeWindow : Option Nat
  mainSurface : Option Nat
  handle : Option Nat
  func_libgodot_create_godot_instance_android : Option Nat
  func_libgodot_destroy_godot_instance : Option Nat
  contentScaleFactor : Nat
  windowUpdateCallbacks : List (String × WindowFuncData)
  handleToWindowName : List (Nat × String)
  in_background : Bool
  paused : Bool
deriving DecidableEq, Repr

/-- The state of `class GodotModule`: `_instance` and the platform data. -/
structure GodotModule where
  _instance : Option Nat
  _data : AndroidPlatformData
deriving DecidableEq, Repr

/-- The module as `get_singleton()` first builds it: default member values. -/
def GodotModule.singleton : GodotModule :=
  { _instance := none,
    _data :=
      { mainNativeWindow := none, mainSurface := none, handle := none,
        func_libgodot_create_godot_instance_android := none,
        func_libgodot_destroy_godot_instance := none,
        contentScaleFactor := 1, windowUpdateCallbacks := [], handleToWindowName := [],
        in_background := false, paused := false } }

/-- What the surroundings answer during `get_or_create_instance`: the build
variant, the dynamic loader, the engine entry point, the engine instance and
the host shell (`LibGodot`). -/
structure Platform where
  /-- Whether the build defines `LIBGODOT_STATIC`. -/
  LIBGODOT_STATIC : Bool
  /-- Result of `dlopen("libgodot_android.so", ...)`. -/
  dlopen : Option Nat
  /-- Result of `dlsym(handle, "libgodot_create_godot_instance_android")`. -/
  dlsym_create : Nat → Option Nat
  /-- Address of the statically linked creation entry point. -/
  static_create : Nat
  /-- What the creation entry point returns for an argument vector; `none`
  is a null instance pointer. -/
  create_godot_instance : List String → Option Nat
  /-- Result of `instance->start()`. -/
  start : Nat → Bool
  /-- Result of `LibGodot::get_main_surface()`. -/
  main_surface : Option Nat
  /-- The surface object made by `RenderingNativeSurfaceAndroid::create`. -/
  new_surface : Nat

/-- Calls into the surroundings made by the module, in the order made. -/
inductive Effect where
  | dlopen (result : Option Nat)
  | dlsym (handle : Nat) (symbol : String) (result : Option Nat)
  | dlclose (handle : Nat)
  | create_godot_instance (fn : Nat) (argc : Nat) (argv : List String)
  | set_native_surface (surface : Option Nat)
  | instance_start (inst : Nat) (started : Bool)
  | postFrameCallback64
  | updateWindows (adding : Bool)
  | ANativeWindow_release (window : Option Nat)
  | destroy_godot_instance (fn : Nat) (inst : Nat)
  | binding_deinit
  | dlclose_null
deriving DecidableEq, Repr

/-- Result of `get_or_create_instance`: the module afterwards, the returned
instance pointer, and the calls made. -/
structure CreateOutcome where
  module : GodotModule
  result : Option Nat
  effects : List Effect
deriving DecidableEq, Repr

/-- Resolution of the creation entry point (lines 261-286).  On success: the
module with the entry point cached, the local `handle`, the entry point, and
the calls made.  On failure: the outcome `get_or_create_instance` returns. -/
def GodotModule.resolveCreate (self : GodotModule) (env : Platform) :
    Except CreateOutcome (GodotModule × Option Nat × Nat × List Effect) :=
  match self._data.func_libgodot_create_godot_instance_android with
  | some fn => .ok (self, none, fn, [])
  | none =>
    if env.LIBGODOT_STATIC then
      .ok ({ self with _data := { self._data with
              func_libgodot_create_godot_instance_android := some env.static_create } },
           none, env.static_create, [])
    else
      match env.dlopen with
      | none => .error { module := self, result := none, effects := [Effect.dlopen none] }
      | some handle =>
        match env.dlsym_create handle with
        | none =>
          .error { module := self, result := none,
                   effects := [Effect.dlopen (some handle),
                     Effect.dlsym handle "libgodot_create_godot_instance_android" none,
                     Effect.dlclose handle] }
        | some fn =>
          .ok ({ self with _data := { self._data with
                  func_libgodot_create_godot_instance_android := some fn } },
               some handle, fn,
               [Effect.dlopen (some handle),
                Effect.dlsym handle "libgodot_create_godot_instance_android" (some fn)])

/-- The C string that `arg.c_str()` points to, as a function taking a
`char *` reads it: the text of `arg` before its first NUL character. -/
def std_string_c_str (arg : String) : String :=
  String.mk (arg.data.takeWhile (fun ch => decide (ch ≠ Char.ofNat 0)))

/-- Models `GodotModule::get_or_create_instance(args)` (lines 248-368).  The
vector `cargs` holds the `c_str()` pointer of each element of `cmdline`
(lines 293-296); the entry point receives `cargs.size()` and these pointers,
so it reads each element as a C string, and the call is logged with what it
receives. -/
def GodotModule.get_or_create_instance (self : GodotModule) (env : Platform)
    (args : List String) : CreateOutcome :=
  match self._instance with
  | some inst => { module := self, result := some inst, effects := [] }
  | none =>
    match self.resolveCreate env with
    | .error out => out
    | .ok (m1, handle, fn, eff1) =>
      let cmdline : List String := "apk" :: args
      let cargs : List String := cmdline.map std_string_c_str
      let eff2 := eff1 ++ [Effect.create_godot_instance fn cargs.length cargs]
      match env.create_godot_instance cargs with
      | none =>
        match handle with
        | some h =>
          { module := { m1 with _data := { m1._data with
                          func_libgodot_create_godot_instance_android := none } },
            result := none,
            effects := eff2 ++ [Effect.dlclose h] }
        | none => { module := m1, result := none, effects := eff2 }
      | some inst =>
        let mainNativeWindow := env.main_surface
        let nativeSurface := env.new_surface
        let started := env.start inst
        let eff3 := eff2 ++ [Effect.set_native_surface (some nativeSurface),
                             Effect.instance_start inst started]
        let eff4 := if started then eff3 ++ [Effect.postFrameCallback64] else eff3
        { module :=
            { _instance := some inst,
              _data := { m1._data with
                mainNativeWindow := mainNativeWindow,
                mainSurface := some nativeSurface,
                contentScaleFactor := 1,
                handle := handle } },
          result := some inst,
          effects := eff4 ++ [Effect.updateWindows true] }

/-- The argument vectors handed to the creation entry point, in call order. -/
def createCalls : List Effect → List (Nat × List String)
  | [] => []
  | Effect.create_godot_instance _ argc argv :: rest => (argc, argv) :: createCalls rest
  | _ :: rest => createCalls rest

/-- The library handles opened by `dlopen`, in call order. -/
def openedHandles : List Effect → List Nat
  | [] => []
  | Effect.dlopen (some h) :: rest => h :: openedHandles rest
  | _ :: rest => openedHandles rest

/-- The library handles closed by `dlclose`, in call order. -/
def closedHandles : List Effect → List Nat
  | [] => []
  | Effect.dlclose h :: rest => h :: closedHandles rest
  | _ :: rest => closedHandles rest

/-- The creation entry point is reached: no instance exists and the entry
point is cached, linked statically, or resolved from the library. -/
def GodotModule.reachesCreate (self : GodotModule) (env : Platform) : Prop :=
  self._instance = none ∧
    (self._data.func_libgodot_create_godot_instance_android ≠ none ∨
     env.LIBGODOT_STATIC = true ∨
     ∃ handle fn, env.dlopen = some handle ∧ env.dlsym_create handle = some fn)

/-! ## Invariants -/

/-- The ordering invariant of the dispatcher model: the queued tasks executed
so far followed by the queue are the queued submissions, and the inline tasks
executed are the inline submissions. -/
def DispatcherRun.Ordered {τ : Type} (s : DispatcherRun τ) : Prop :=
  tasksVia Route.queued s.executed ++ s.thread.tasks = tasksVia Route.queued s.submitted ∧
    tasksVia Route.inline s.executed = tasksVia Route.inline s.submitted

/-! ## Sample inputs -/

/-- A dynamically loading platform on which the library opens (handle 7), the
creation symbol resolves (address 9) and the engine refuses to start. -/
def Platform.sample : Platform :=
  { LIBGODOT_STATIC := false, dlopen := some 7, dlsym_create := fun _ => some 9,
    static_create := 0, create_godot_instance := fun _ => none, start := fun _ => true,
    main_surface := some 3, new_surface := 4 }

/-- A worklet context: identity 1, JS runtime 0, worklet runtime 10. -/
def JsiWorkletContext.sample : JsiWorkletContext :=
  { id := 1, jsRuntime := 0, workletRuntime := 10 }

/-- A second worklet context on the same JS runtime: identity 2, worklet runtime 20. -/
def JsiWorkletContext.second : JsiWorkletContext :=
  { id := 2, jsRuntime := 0, workletRuntime := 20 }

/-- Out-parameters before a call: nil return value, error code OK, nothing logged. -/
def CallState.fresh : CallState :=
  { r_return_value := Variant.NIL,
    r_call_error := { error := GDExtensionCallErrorType.CALL_OK, argument := 0, expected := 0 },
    hostCalls := [], thrown := none }

/-- The run used against the submission-order reading: task 0 is queued and
started; while it runs another thread queues task 1 and task 0 itself hands
task 2 to `enqueue`; then the looper processes the next command. -/
def interleavedRun : DispatcherRun Nat :=
  (DispatcherRun.start Nat).run
    [.enqueueOther 0 true, .process, .enqueueOther 1 true, .enqueueSelf 2, .process]

/-! ## Association maps (`std::map`)

A `std::map` is modelled by the list of its key/value pairs, with at most one
pair per key when built by `mapSet`; the order of iteration is not modelled. -/

/-- The value stored for a key, if any (`find`). -/
def mapFind {κ ν : Type} [DecidableEq κ] : List (κ × ν) → κ → Option ν
  | [], _ => none
  | (k1, v) :: rest, k => if k1 = k then some v else mapFind rest k

/-- Whether a key is present (`contains`). -/
def mapContains {κ ν : Type} [DecidableEq κ] (m : List (κ × ν)) (k : κ) : Bool :=
  (mapFind m k).isSome

/-- The assignment `m[k] = v`: replaces the value of a present key, adds the
pair otherwise. -/
def mapSet {κ ν : Type} [DecidableEq κ] : List (κ × ν) → κ → ν → List (κ × ν)
  | [], k, v => [(k, v)]
  | (k1, v1) :: rest, k, v =>
    if k1 = k then (k, v) :: rest else (k1, v1) :: mapSet rest k v

/-- Removal of a key (`erase`). -/
def mapErase {κ ν : Type} [DecidableEq κ] (m : List (κ × ν)) (k : κ) : List (κ × ν) :=
  m.filter (fun e => decide (e.1 ≠ k))

/-! ## GodotModule: instance destruction (GodotModule.cpp, lines 381-440) -/

/-- What the surroundings answer during `destroy_instance`: the build variant
and the resolution of the destroy entry point. -/
structure DestroyPlatform where
  /-- Whether the build defines `LIBGODOT_STATIC`. -/
  LIBGODOT_STATIC : Bool
  /-- Result of `dlsym(handle, "libgodot_destroy_godot_instance")`. -/
  dlsym_destroy : Nat → Option Nat
  /-- Address of the statically linked destroy entry point. -/
  static_destroy : Nat

/-- Result of `destroy_instance`: the module afterwards and the calls made. -/
structure DestroyOutcome where
  module : GodotModule
  effects : List Effect
deriving DecidableEq, Repr

/-- Resolution of the destroy entry point (lines 392-421).  On success: the
module with the entry point cached, the entry point, and the calls made.  On
failure: the outcome `destroy_instance` returns. -/
def GodotModule.resolveDestroy (self : GodotModule) (env : DestroyPlatform) :
    Except DestroyOutcome (GodotModule × Nat × List Effect) :=
  match self._data.func_libgodot_destroy_godot_instance with
  | some fn => .ok (self, fn, [])
  | none =>
    if env.LIBGODOT_STATIC then
      .ok ({ self with _data := { self._data with
              func_libgodot_destroy_godot_instance := some env.static_destroy } },
           env.static_destroy, [])
    else
      match self._data.handle with
      | none => .error { module := self, effects := [] }
      | some handle =>
        match env.dlsym_destroy handle with
        | none =>
          .error { module := self,
                   effects := [Effect.dlsym handle "libgodot_destroy_godot_instance" none,
                     Effect.dlclose handle] }
        | some fn =>
          .ok ({ self with _data := { self._data with
                  func_libgodot_destroy_godot_instance := some fn } },
               fn, [Effect.dlsym handle "libgodot_destroy_godot_instance" (some fn)])

/-- Models `GodotModule::destroy_instance()` (lines 381-440). -/
def GodotModule.destroy_instance (self : GodotModule) (env : DestroyPlatform) :
    DestroyOutcome :=
  match self._instance with
  | none => { module := self, effects := [] }
  | some inst =>
    match self.resolveDestroy env with
    | .error out => out
    | .ok (m1, fn, eff1) =>
      { module :=
          { _instance := none,
            _data := { m1._data with
              mainNativeWindow := none,
              mainSurface := none,
              handle := none,
              paused := false } },
        effects := eff1 ++
          [Effect.set_native_surface none,
           Effect.ANativeWindow_release m1._data.mainNativeWindow,
           Effect.destroy_godot_instance fn inst,
           Effect.binding_deinit,
           match m1._data.handle with
           | some h => Effect.dlclose h
           | none => Effect.dlclose_null] }

/-! ## GodotModule: window update callbacks (GodotModule.cpp, lines 575-603) -/

/-- The default-constructed `WindowFuncData()`: null handler, null reference
(0 is the null pointer). -/
def WindowFuncData.null : WindowFuncData :=
  { func := 0, ref := 0 }

/-- Models `GodotModule::registerWindowUpdateCallback(name, handle, f, ref)`
(lines 575-589). -/
def GodotModule.registerWindowUpdateCallback (self : GodotModule) (name : String)
    (handle : Nat) (f : Nat) (ref : Nat) : GodotModule :=
  let data := self._data
  match mapFind data.handleToWindowName handle with
  | some currentName =>
    if currentName ≠ name then self
    else
      { self with _data := { data with
          windowUpdateCallbacks := mapSet data.windowUpdateCallbacks name ⟨f, ref⟩ } }
  | none =>
    let data1 : AndroidPlatformData :=
      { data with handleToWindowName := mapSet data.handleToWindowName handle name }
    { self with _data := { data1 with
        windowUpdateCallbacks := mapSet data1.windowUpdateCallbacks name ⟨f, ref⟩ } }

/-- Models `GodotModule::unregisterWindowUpdateCallback(handle)` (lines
591-603): the module afterwards and the references handed to
`DeleteGlobalRef`, in call order.  Reading `windowUpdateCallbacks[name]` for
an absent name yields `WindowFuncData()`. -/
def GodotModule.unregisterWindowUpdateCallback (self : GodotModule) (handle : Nat) :
    GodotModule × List Nat :=
  let data := self._data
  match mapFind data.handleToWindowName handle with
  | some name =>
    let fd : WindowFuncData :=
      match mapFind data.windowUpdateCallbacks name with
      | some d => d
      | none => WindowFuncData.null
    ({ self with _data := { data with
        windowUpdateCallbacks := mapErase data.windowUpdateCallbacks name,
        handleToWindowName := mapErase data.handleToWindowName handle } },
     [fd.ref])
  | none => (self, [])

/-- A call of the callback registry. -/
inductive RegistryCall where
  | register (name : String) (handle : Nat) (f : Nat) (ref : Nat)
  | unregister (handle : Nat)
deriving DecidableEq, Repr

/-- Effect of one registry call on the module and on the log of released
references. -/
def RegistryCall.apply (s : GodotModule × List Nat) : RegistryCall → GodotModule × List Nat
  | .register name handle f ref => (s.1.registerWindowUpdateCallback name handle f ref, s.2)
  | .unregister handle =>
    ((s.1.unregisterWindowUpdateCallback handle).1,
     s.2 ++ (s.1.unregisterWindowUpdateCallback handle).2)

/-- Runs registry calls from the initial module, with an empty release log. -/
def runRegistry (calls : List RegistryCall) : GodotModule × List Nat :=
  calls.foldl RegistryCall.apply (GodotModule.singleton, [])

/-! ## LibGodot: the window registry (libgodot_jni.cpp, lines 52-313) -/

/-- The struct `WindowData`.  A surface is an `ANativeWindow *` (`none` is
`nullptr`). -/
structure WindowData where
  width : Int
  height : Int
  id : Int
  surface : Option Nat
deriving DecidableEq, Repr

/-- The constructor `WindowData()`. -/
def WindowData.empty : WindowData :=
  { width := 0, height := 0, id := -1, surface := none }

/-- The constructor `WindowData(p_surface, p_width, p_height, p_id = -1)`. -/
def WindowData.create (p_surface : Option Nat) (p_width p_height : Int) (p_id : Int) :
    WindowData :=
  { width := p_width, height := p_height, id := p_id, surface := p_surface }

/-- The static `windowMap`: window name to window data. -/
abbrev WindowMap := List (String × WindowData)

/-- The closure returned by `createUpdateWindowFunc`: its captured arguments. -/
structure WindowTask where
  p_window_name : String
  p_width : Int
  p_height : Int
  p_window_surface : Option Nat
  p_change_surface : Bool
deriving DecidableEq, Repr

/-- Models `createUpdateWindowFunc(...)`: builds the closure. -/
def createUpdateWindowFunc (p_window_name : String) (p_width p_height : Int)
    (p_window_surface : Option Nat) (p_change_surface : Bool) : WindowTask :=
  { p_window_name := p_window_name, p_width := p_width, p_height := p_height,
    p_window_surface := p_window_surface, p_change_surface := p_change_surface }

/-- The part of `LibGodot::initialize` that writes the registry (line 75):
`windowMap[""] = WindowData(mainSurface, p_width, p_height, 0)`. -/
def LibGodot.initialize_registry (windowMap : WindowMap) (mainSurface : Option Nat)
    (p_width p_height : Int) : WindowMap :=
  mapSet windowMap "" (WindowData.create mainSurface p_width p_height 0)

/-- The part of `LibGodot::cleanup` that touches the registry (lines 131-138):
every surface is released and the map is cleared.  Returns the empty map and
the released surfaces. -/
def LibGodot.cleanup (windowMap : WindowMap) : WindowMap × List (Option Nat) :=
  ([], windowMap.map (fun item => item.2.surface))

/-- Result of the block of `updateWindowNative` that runs under the registry
lock (lines 210-232): the registry afterwards, the local `changeSurface`, and
whether the warning of line 227 was logged. -/
structure EntryUpdate where
  windowMap : WindowMap
  changeSurface : Bool
  warned : Bool
deriving DecidableEq, Repr

/-- The block of `LibGodot::updateWindowNative` under the registry lock (lines
210-232), after the conversion of the arguments: `windowName` is the name,
`windowSurface` the result of `ANativeWindow_fromSurface`. -/
def LibGodot.updateWindowEntry (windowMap : WindowMap) (windowName : String)
    (windowSurface : Option Nat) (p_width p_height : Int) : EntryUpdate :=
  let absent := !mapContains windowMap windowName
  let map1 : WindowMap :=
    if absent then mapSet windowMap windowName (WindowData.create windowSurface p_width p_height (-1))
    else windowMap
  let changeSurface1 := absent
  let winData : WindowData :=
    match mapFind map1 windowName with
    | some d => d
    | none => WindowData.empty
  let differs := decide (winData.surface ≠ windowSurface)
  let changeSurface := changeSurface1 || differs
  let winData1 : WindowData := if differs then { winData with surface := windowSurface } else winData
  let warned := decide (windowName = "") && changeSurface
  let winData2 : WindowData := { winData1 with width := p_width, height := p_height }
  { windowMap := mapSet map1 windowName winData2,
    changeSurface := changeSurface,
    warned := warned }

/-- The closure handed to `runOnGodotThread` by `removeWindowNative`
(lines 263-284): its captured values. -/
structure RemoveTask where
  windowName : String
  windowSurface : Option Nat
deriving DecidableEq, Repr

/-- Result of `removeWindowNative`: the registry afterwards and the task
handed to `runOnGodotThread`, if any. -/
structure RemoveOutcome where
  windowMap : WindowMap
  submitted : Option RemoveTask
deriving DecidableEq, Repr

/-- Models `LibGodot::removeWindowNative` (lines 239-288) after the
conversion of its argument. -/
def LibGodot.removeWindowNative (windowMap : WindowMap) (started : Bool)
    (windowName : String) : RemoveOutcome :=
  if windowName = "" then { windowMap := windowMap, submitted := none }
  else if !mapContains windowMap windowName then { windowMap := windowMap, submitted := none }
  else
    let windowSurface : Option Nat :=
      match mapFind windowMap windowName with
      | some d => d.surface
      | none => none
    { windowMap := mapErase windowMap windowName,
      submitted := if started then some { windowName := windowName, windowSurface := windowSurface }
                   else none }

/-- What the engine tells about a `godot::Window` node: its native surface
(`none` when the reference is not valid, otherwise the `ANativeWindow *` it
wraps) and its window id. -/
structure EngineWindow where
  native_surface : Option (Option Nat)
  window_id : Int
deriving DecidableEq, Repr

/-- What the running scene answers to a window-update task: whether the main
loop is a `SceneTree`, and the `Window` that `find_child(name, true, false)`
finds below the root (`none` when there is no such node or it is not a
`Window`). -/
structure Scene where
  hasSceneTree : Bool
  find_child : String → Option EngineWindow

/-- Calls into the engine made by a window-update task. -/
inductive WindowEffect where
  | set_visible (name : String) (visible : Bool)
  | set_native_surface (name : String) (surface : Option Nat) (width height : Int)
  | resize_window (width height : Int) (windowId : Int)
deriving DecidableEq, Repr

/-- Lines 151-188 of the task: the value of the local `windowId` when line 189
is reached together with the engine calls made so far; `none` when the task
returns at line 161 (no `SceneTree`). -/
def WindowTask.resolve (t : WindowTask) (scene : Scene) : Option (Int × List WindowEffect) :=
  if t.p_window_name = "" then some (0, [])
  else if !scene.hasSceneTree then none
  else
    match scene.find_child t.p_window_name with
    | none => some (-1, [])
    | some newWindow =>
      let change_surface : Bool :=
        match newWindow.native_surface with
        | some current_window => decide (current_window ≠ t.p_window_surface)
        | none => true
      if change_surface then
        some (newWindow.window_id,
          [WindowEffect.set_visible t.p_window_name true,
           WindowEffect.set_native_surface t.p_window_name t.p_window_surface t.p_width
             t.p_height])
      else some (newWindow.window_id, [])

/-- Result of running a window-update task. -/
structure TaskOutcome where
  windowMap : WindowMap
  effects : List WindowEffect
deriving DecidableEq, Repr

/-- The body of the closure returned by `createUpdateWindowFunc` (lines
150-200), run against the scene and the registry. -/
def WindowTask.run (t : WindowTask) (scene : Scene) (windowMap : WindowMap) : TaskOutcome :=
  match t.resolve scene with
  | none => { windowMap := windowMap, effects := [] }
  | some (windowId, effects) =>
    if 0 ≤ windowId then
      { windowMap :=
          if 0 < windowId ∧ mapContains windowMap t.p_window_name = true then
            match mapFind windowMap t.p_window_name with
            | some d => mapSet windowMap t.p_window_name { d with id := windowId }
            | none => windowMap
          else windowMap,
        effects := effects ++ [WindowEffect.resize_window t.p_width t.p_height windowId] }
    else { windowMap := windowMap, effects := effects }

/-- Result of `updateWindowNative`: the registry afterwards, the local
`changeSurface`, whether the warning of line 227 was logged, the task handed
to `runOnGodotThread` with its `wait` flag, if any, and the engine calls the
task made. -/
structure UpdateOutcome where
  windowMap : WindowMap
  changeSurface : Bool
  warned : Bool
  submitted : Option (WindowTask × Bool)
  effects : List WindowEffect
deriving DecidableEq, Repr

/-- Models `LibGodot::updateWindowNative` (lines 203-237).  `engine` is `none`
when no instance exists or the instance has not started (line 234);
otherwise it is the scene the window-update task meets.  After the block
under the registry lock the task is handed to `runOnGodotThread(..., true)`
(line 235): the call, made on a thread other than the engine thread, comes
back when the engine thread has run the task, so the registry of the
outcome is the one the task leaves. -/
def LibGodot.updateWindowNative (windowMap : WindowMap) (engine : Option Scene)
    (windowName : String) (windowSurface : Option Nat) (p_width p_height : Int) :
    UpdateOutcome :=
  let entry := LibGodot.updateWindowEntry windowMap windowName windowSurface p_width p_height
  match engine with
  | none =>
    { windowMap := entry.windowMap, changeSurface := entry.changeSurface,
      warned := entry.warned, submitted := none, effects := [] }
  | some scene =>
    let task := createUpdateWindowFunc windowName p_width p_height windowSurface
      entry.changeSurface
    let ran := task.run scene entry.windowMap
    { windowMap := ran.windowMap, changeSurface := entry.changeSurface,
      warned := entry.warned, submitted := some (task, true), effects := ran.effects }

/-- Models `getWindowId(p_name)` (lines 381-387). -/
def getWindowId (windowMap : WindowMap) (p_name : String) : Int :=
  match mapFind windowMap p_name with
  | some d => d.id
  | none => -1

/-- A step of the window registry. -/
inductive WindowStep where
  | update_window (engine : Option Scene) (name : String) (surface : Option Nat)
      (width height : Int)
  | remove_window (started : Bool) (name : String)
  | cleanup
  | task (t : WindowTask) (scene : Scene)

/-- Effect of one step on the registry. -/
def WindowStep.apply (windowMap : WindowMap) : WindowStep → WindowMap
  | .update_window engine name surface width height =>
    (LibGodot.updateWindowNative windowMap engine name surface width height).windowMap
  | .remove_window started name => (LibGodot.removeWindowNative windowMap started name).windowMap
  | .cleanup => (LibGodot.cleanup windowMap).1
  | .task t scene => (t.run scene windowMap).windowMap

/-- Runs steps on a registry. -/
def runWindowSteps (windowMap : WindowMap) (steps : List WindowStep) : WindowMap :=
  steps.foldl WindowStep.apply windowMap

/-- The default entry, if present, has id 0. -/
def DefaultIdZero (windowMap : WindowMap) : Prop :=
  ∀ d, mapFind windowMap "" = some d → d.id = 0

/-- A step that does not create the default entry: every step but an
`update_window` for the default name on a registry without the default entry. -/
def WindowStep.keepsDefault (windowMap : WindowMap) : WindowStep → Prop
  | .update_window _ name _ _ _ => name = "" → mapContains windowMap "" = true
  | _ => True

/-! ## Touch events (libgodot_jni.cpp, lines 363-590)

Coordinates, pressure and tilt are C `float`s.  The model is generic in the
type `F` of these numbers and in the two operations the code applies to them:
the comparison `==` and the subtraction `-`. -/

/-- The two floating-point operations used by the touch dispatch. -/
structure FloatOps (F : Type) where
  /-- The comparison `a == b`. -/
  eq : F → F → Bool
  /-- The difference `a - b`. -/
  sub : F → F → F

/-- A `godot::Vector2` (also `godot::Point2`). -/
structure Vector2 (F : Type) where
  x : F
  y : F
deriving DecidableEq, Repr

/-- The comparison `a == b` of two vectors: both coordinates compare equal. -/
def Vector2.equals {F : Type} (ops : FloatOps F) (a b : Vector2 F) : Bool :=
  ops.eq a.x b.x && ops.eq a.y b.y

/-- The difference `a - b` of two vectors, coordinate by coordinate. -/
def Vector2.minus {F : Type} (ops : FloatOps F) (a b : Vector2 F) : Vector2 F :=
  { x := ops.sub a.x b.x, y := ops.sub a.y b.y }

/-- The struct `TouchPos`. -/
structure TouchPos (F : Type) where
  id : Int
  pos : Vector2 F
  pressure : F
  tilt : Vector2 F
deriving DecidableEq, Repr

/-- The input events handed to `Input::parse_input_event`, with the
properties the code sets (properties it does not set keep the default
`false`). -/
inductive InputEvent (F : Type) where
  | screenTouch (window_id : Int) (index : Int) (pressed : Bool) (canceled : Bool)
      (position : Vector2 F) (double_tap : Bool)
  | screenDrag (window_id : Int) (index : Int) (position : Vector2 F) (relative : Vector2 F)
      (pressure : F) (tilt : Vector2 F)
deriving DecidableEq, Repr

/-- Action code `AMOTION_EVENT_ACTION_DOWN` of the Android NDK. -/
def AMOTION_EVENT_ACTION_DOWN : Int := 0

/-- Action code `AMOTION_EVENT_ACTION_UP` of the Android NDK. -/
def AMOTION_EVENT_ACTION_UP : Int := 1

/-- Action code `AMOTION_EVENT_ACTION_MOVE` of the Android NDK. -/
def AMOTION_EVENT_ACTION_MOVE : Int := 2

/-- Action code `AMOTION_EVENT_ACTION_CANCEL` of the Android NDK. -/
def AMOTION_EVENT_ACTION_CANCEL : Int := 3

/-- Action code `AMOTION_EVENT_ACTION_POINTER_DOWN` of the Android NDK. -/
def AMOTION_EVENT_ACTION_POINTER_DOWN : Int := 5

/-- Action code `AMOTION_EVENT_ACTION_POINTER_UP` of the Android NDK. -/
def AMOTION_EVENT_ACTION_POINTER_UP : Int := 6

/-- The static `touches`: window id to the tracked touch points (an absent
key and an empty vector are the same). -/
abbrev TouchTable (F : Type) := Int → List (TouchPos F)

/-- The assignment `touches[windowId] = touch`. -/
def TouchTable.set {F : Type} (touches : TouchTable F) (windowId : Int)
    (touch : List (TouchPos F)) : TouchTable F :=
  fun w => if w = windowId then touch else touches w

/-- The inner loop of the MOVE case (lines 498-504): the first index `j`,
counted from `j0`, of a point whose id is `id`; `none` is `idx == -1`. -/
def findPointIndex {F : Type} (id : Int) : List (TouchPos F) → Nat → Option Nat
  | [], _ => none
  | p :: ps, j0 => if id = p.id then some j0 else findPointIndex id ps (j0 + 1)

/-- The outer loop of the MOVE case (lines 497-523), with `n` iterations left
and loop index `i`: the touch vector and the events emitted so far are
updated in place. -/
def moveLoop {F : Type} (ops : FloatOps F) (windowId : Int) (points : List (TouchPos F)) :
    Nat → Nat → List (TouchPos F) → List (InputEvent F) →
    List (TouchPos F) × List (InputEvent F)
  | 0, _, touch, events => (touch, events)
  | n + 1, i, touch, events =>
    match touch[i]? with
    | none => (touch, events)
    | some t =>
      match findPointIndex t.id points 0 with
      | none => moveLoop ops windowId points n (i + 1) touch events
      | some idx =>
        match points[idx]? with
        | none => moveLoop ops windowId points n (i + 1) touch events
        | some pt =>
          if Vector2.equals ops t.pos pt.pos then
            moveLoop ops windowId points n (i + 1) touch events
          else
            moveLoop ops windowId points n (i + 1)
              (touch.set i { t with pos := pt.pos })
              (events ++ [InputEvent.screenDrag windowId t.id pt.pos
                (Vector2.minus ops pt.pos t.pos) pt.pressure pt.tilt])

/-- The loop of the POINTER_DOWN case (lines 556-571): the first point whose
id is `p_pointer`. -/
def firstPointWithId {F : Type} (p_pointer : Int) : List (TouchPos F) → Option (TouchPos F)
  | [] => none
  | p :: ps => if p.id = p_pointer then some p else firstPointWithId p_pointer ps

/-- The loop of the POINTER_UP case (lines 575-587): the first touch whose id
is `p_pointer` is reported and removed (`remove_at`). -/
def removeFirstWithId {F : Type} (windowId : Int) (p_pointer : Int) :
    List (TouchPos F) → List (TouchPos F) × List (InputEvent F)
  | [] => ([], [])
  | t :: ts =>
    if t.id = p_pointer then
      (ts, [InputEvent.screenTouch windowId t.id false false t.pos false])
    else
      let r := removeFirstWithId windowId p_pointer ts
      (t :: r.1, r.2)

/-- Result of `dispatchTouchEvent`: the touch table afterwards and the events
handed to the engine, in order. -/
structure TouchOutcome (F : Type) where
  touches : TouchTable F
  events : List (InputEvent F)

/-- Models `Java_com_rtngodot_RTNLibGodot_dispatchTouchEvent` (lines 449-590).
`started` tells whether an instance exists and is started; `points` is the
vector built from the packed float array by lines 460-470. -/
def dispatchTouchEvent {F : Type} (ops : FloatOps F) (started : Bool) (windowMap : WindowMap)
    (touches : TouchTable F) (windowName : String) (p_event : Int) (p_pointer : Int)
    (points : List (TouchPos F)) (p_double_tap : Bool) : TouchOutcome F :=
  if !started then { touches := touches, events := [] }
  else
    let windowId := getWindowId windowMap windowName
    if windowId < 0 then { touches := touches, events := [] }
    else if p_event = AMOTION_EVENT_ACTION_DOWN then
      { touches := touches.set windowId points,
        events := points.map (fun t =>
          InputEvent.screenTouch windowId t.id true false t.pos p_double_tap) }
    else if p_event = AMOTION_EVENT_ACTION_MOVE then
      let touch := touches windowId
      if touch.length ≠ points.length then { touches := touches, events := [] }
      else
        let r := moveLoop ops windowId points touch.length 0 touch []
        { touches := touches.set windowId r.1, events := r.2 }
    else if p_event = AMOTION_EVENT_ACTION_CANCEL then
      { touches := touches,
        events := (touches windowId).map (fun t =>
          InputEvent.screenTouch windowId t.id false true t.pos p_double_tap) }
    else if p_event = AMOTION_EVENT_ACTION_UP then
      { touches := touches,
        events := (touches windowId).map (fun t =>
          InputEvent.screenTouch windowId t.id false false t.pos p_double_tap) }
    else if p_event = AMOTION_EVENT_ACTION_POINTER_DOWN then
      match firstPointWithId p_pointer points with
      | some tp =>
        { touches := touches.set windowId (touches windowId ++ [tp]),
          events := [InputEvent.screenTouch windowId tp.id true false tp.pos false] }
      | none => { touches := touches, events := [] }
    else if p_event = AMOTION_EVENT_ACTION_POINTER_UP then
      let r := removeFirstWithId windowId p_pointer (touches windowId)
      { touches := touches.set windowId r.1, events := r.2 }
    else { touches := touches, events := [] }

/-- The first point of `points` with the given id, in the claim's words. -/
def firstPointOf {F : Type} (points : List (TouchPos F)) (id : Int) : Option (TouchPos F) :=
  points.find? (fun p => decide (id = p.id))

/-- The drag event a MOVE owes to the tracked touch `t`, stated from the
claim: one exists when the first point with the id of `t` has a position
that differs from the stored one; it carries the new position and the
difference to the stored position. -/
def dragEventFor {F : Type} (ops : FloatOps F) (windowId : Int) (points : List (TouchPos F))
    (t : TouchPos F) : Option (InputEvent F) :=
  match firstPointOf points t.id with
  | none => none
  | some pt =>
    if Vector2.equals ops t.pos pt.pos then none
    else some (InputEvent.screenDrag windowId t.id pt.pos (Vector2.minus ops pt.pos t.pos)
      pt.pressure pt.tilt)

/-- The tracked touch `t` after a MOVE, stated from the claim: it stores the
new position when a drag event is owed, and is unchanged otherwise. -/
def touchAfterMove {F : Type} (ops : FloatOps F) (points : List (TouchPos F))
    (t : TouchPos F) : TouchPos F :=
  match firstPointOf points t.id with
  | none => t
  | some pt => if Vector2.equals ops t.pos pt.pos then t else { t with pos := pt.pos }

/-- Integer coordinates with exact comparison and subtraction, for examples. -/
def FloatOps.exact : FloatOps Int :=
  { eq := fun a b => decide (a = b), sub := fun a b => a - b }

/-- One call of `dispatchTouchEvent` for a given window: action, pointer id,
points and double-tap flag. -/
structure TouchCall (F : Type) where
  p_event : Int
  p_pointer : Int
  points : List (TouchPos F)
  p_double_tap : Bool

/-- Dispatches the calls one after the other for the window `windowName` and
collects the events handed to the engine, in order. -/
def dispatchAll {F : Type} (ops : FloatOps F) (started : Bool) (windowMap : WindowMap)
    (windowName : String) : TouchTable F → List (TouchCall F) → List (InputEvent F)
  | _, [] => []
  | touches, c :: cs =>
    (dispatchTouchEvent ops started windowMap touches windowName c.p_event c.p_pointer
        c.points c.p_double_tap).events ++
      dispatchAll ops started windowMap windowName
        (dispatchTouchEvent ops started windowMap touches windowName c.p_event c.p_pointer
          c.points c.p_double_tap).touches cs

/-- No step of the run has to create the default entry. -/
def keepsDefaultAlong : WindowMap → List WindowStep → Prop
  | _, [] => True
  | windowMap, st :: rest =>
    st.keepsDefault windowMap ∧ keepsDefaultAlong (st.apply windowMap) rest

/-- A platform on which the engine starts: library handle 7, creation entry
point 9, instance 5. -/
def Platform.working : Platform :=
  { LIBGODOT_STATIC := false, dlopen := some 7, dlsym_create := fun _ => some 9,
    static_create := 0, create_godot_instance := fun _ => some 5, start := fun _ => true,
    main_surface := some 3, new_surface := 4 }

/-- A platform on which the destroy entry point resolves to address 8. -/
def DestroyPlatform.sample : DestroyPlatform :=
  { LIBGODOT_STATIC := false, dlsym_destroy := fun _ => some 8, static_destroy := 0 }

/-- The module after a successful creation followed by `destroy_instance`. -/
def GodotModule.createdThenDestroyed : GodotModule :=
  (GodotModule.destroy_instance
    (GodotModule.singleton.get_or_create_instance Platform.working ["--scene", "foo"]).module
    DestroyPlatform.sample).module

/-- A registry holding the default window and the window "w" with id 2. -/
def WindowMap.sample : WindowMap :=
  [("", WindowData.create (some 1) 100 200 0), ("w", WindowData.create (some 2) 50 60 2)]

/-- A scene with a `SceneTree` in which the window "w" exists, has no native
surface yet, and has the window id 3. -/
def Scene.sample : Scene :=
  { hasSceneTree := true,
    find_child := fun name =>
      if name = "w" then some { native_surface := none, window_id := 3 } else none }

/-- A touch table in which window 2 tracks the touches 1 at (5,5) and 2 at
(8,8). -/
def TouchTable.sample : TouchTable Int :=
  fun w =>
    if w = 2 then
      [ { id := 1, pos := ⟨5, 5⟩, pressure := 0, tilt := ⟨0, 0⟩ },
        { id := 2, pos := ⟨8, 8⟩, pressure := 0, tilt := ⟨0, 0⟩ } ]
    else []

/-- MOVE points for `TouchTable.sample`: touch 2 stays at (8,8), touch 1 moves
to (6,5). -/
def movePointsSample : List (TouchPos Int) :=
  [ { id := 2, pos := ⟨8, 8⟩, pressure := 1, tilt := ⟨0, 0⟩ },
    { id := 1, pos := ⟨6, 5⟩, pressure := 1, tilt := ⟨0, 0⟩ } ]

/-! ## Method call error text (`NativeGodotModule.cpp`, lines 49-76) -/

/-- Models `std::to_string` on an `int32_t`: the decimal digits, with a
leading minus sign for a negative number. -/
def to_string (n : Int) : String :=
  toString n

/-- Models `create_method_call_error_string(methodName, error)` (lines 49-76).
`ret` starts as the prefix and each `case` appends to it; the `case` of
`GDEXTENSION_CALL_OK` has no `break` and falls through to `default`. -/
def create_method_call_error_string (methodName : String)
    (error : GDExtensionCallError) : String :=
  let ret := "Method call error name: " ++ methodName ++ " "
  match error.error with
  | .CALL_ERROR_INVALID_METHOD => ret ++ "Invalid method"
  | .CALL_ERROR_INVALID_ARGUMENT => ret ++ "Invalid argument"
  | .CALL_ERROR_INSTANCE_IS_NULL => ret ++ "Instance is null"
  | .CALL_ERROR_METHOD_NOT_CONST => ret ++ "Method not const"
  | .CALL_ERROR_TOO_FEW_ARGUMENTS =>
      ret ++ ("Too few arguments (Expected: " ++ to_string error.expected
        ++ ", Actual: " ++ to_string error.argument ++ ")")
  | .CALL_ERROR_TOO_MANY_ARGUMENTS =>
      ret ++ ("Too many arguments (Expected: " ++ to_string error.expected
        ++ ", Actual: " ++ to_string error.argument ++ ")")
  | .CALL_OK => (ret ++ "Call OK (Should never happen)") ++ "Unknown Error"
  | .CALL_ERROR_OTHER _ => ret ++ "Unknown Error"

/-- The description the specification gives for a call error: one text per
named code, with the expected and the actual count in decimal for the two
count errors, and `Unknown Error` for any other code. -/
def callErrorDescription (e : GDExtensionCallError) : String :=
  if e.error = .CALL_ERROR_INVALID_METHOD then "Invalid method"
  else if e.error = .CALL_ERROR_INVALID_ARGUMENT then "Invalid argument"
  else if e.error = .CALL_ERROR_INSTANCE_IS_NULL then "Instance is null"
  else if e.error = .CALL_ERROR_METHOD_NOT_CONST then "Method not const"
  else if e.error = .CALL_ERROR_TOO_FEW_ARGUMENTS then
    "Too few arguments (Expected: " ++ toString e.expected ++ ", Actual: "
      ++ toString e.argument ++ ")"
  else if e.error = .CALL_ERROR_TOO_MANY_ARGUMENTS then
    "Too many arguments (Expected: " ++ toString e.expected ++ ", Actual: "
      ++ toString e.argument ++ ")"
  else "Unknown Error"

/-- The six codes the specification names. -/
def GDExtensionCallErrorType.isNamed : GDExtensionCallErrorType → Bool
  | .CALL_ERROR_INVALID_METHOD => true
  | .CALL_ERROR_INVALID_ARGUMENT => true
  | .CALL_ERROR_INSTANCE_IS_NULL => true
  | .CALL_ERROR_METHOD_NOT_CONST => true
  | .CALL_ERROR_TOO_FEW_ARGUMENTS => true
  | .CALL_ERROR_TOO_MANY_ARGUMENTS => true
  | _ => false

/-! ## `createInstance` of the host module (`NativeGodotModule.cpp`, lines 701-741) -/

/-- The argument vector `godotArgs` that `createInstanceFunc` builds (lines
702-734).  `toStr v` stands for `v.toString(rt).utf8(rt)`, which throws for
some values; `arrayElements id` are the elements of the host array `id`.
`none` is the early return for a call without arguments.  With one argument
an array contributes its elements, and `processed` is set only inside the
loop, so an empty array is converted as a whole.  With two or more arguments
the loop runs `count` times and reads `args[0]` in every round (line 730). -/
def createInstanceArgs (toStr : JsiValue → Except String String)
    (arrayElements : Nat → List JsiValue) (args : List JsiValue) :
    Except String (Option (List String)) :=
  match args with
  | [] => .ok none
  | [arg] =>
      let elements :=
        match arg with
        | .object (.array id) => arrayElements id
        | _ => []
      match elements with
      | _ :: _ => (elements.mapM toStr).map some
      | [] => (toStr arg).map (fun s => some [s])
  | arg0 :: _ :: _ =>
      ((List.range args.length).mapM (fun _ => toStr arg0)).map some

/-- What a call of `createInstanceFunc` produces: the value returned to the
script (or the exception thrown), the module afterwards, and the calls made. -/
structure CreateInstanceOutcome where
  value : Except String JsiValue
  module : GodotModule
  effects : List Effect

/-- Models `createInstanceFunc` (lines 701-741): builds `godotArgs`, calls
`get_or_create_instance` on the singleton, and wraps the instance. -/
def createInstanceFunc (workletContext : JsiWorkletContext) (rt : Nat)
    (toStr : JsiValue → Except String String)
    (arrayElements : Nat → List JsiValue) (mod : GodotModule) (env : Platform)
    (args : List JsiValue) : CreateInstanceOutcome :=
  match createInstanceArgs toStr arrayElements args with
  | .error e => ⟨.error e, mod, []⟩
  | .ok none => ⟨.ok .undefined, mod, []⟩
  | .ok (some godotArgs) =>
      let out := mod.get_or_create_instance env godotArgs
      match out.result with
      | none => ⟨.ok .undefined, out.module, out.effects⟩
      | some inst =>
          ⟨godotVariantToJsiValue workletContext rt (.OBJECT inst), out.module,
            out.effects⟩

/-- A string conversion for sample calls: text, `undefined`, `null` and the
booleans convert as in the host language, other values are not covered. -/
def sampleToStr : JsiValue → Except String String
  | .string s => .ok (String.mk (s.map Char.ofNat))
  | .undefined => .ok "undefined"
  | .null => .ok "null"
  | .bool true => .ok "true"
  | .bool false => .ok "false"
  | _ => .error "conversion not covered by the sample"

/-- The host string with the code points of `s`. -/
def jsString (s : String) : JsiValue :=
  .string (s.data.map Char.toNat)

/-! ## Frame driver and lifecycle (GodotModule.cpp, lines 233-246 and 447-530) -/

/-- The closures the lifecycle functions hand to `data->thread.enqueue`: the
four that lock `_mutex` and forward to the instance (lines 451-456, 464-469,
483-488, 495-500) and the one of `updateState` that registers the frame
callback (lines 524-527). -/
inductive EngineTask where
  | focus_out
  | focus_in
  | pause
  | resume
  | postFrameCallback
deriving DecidableEq, Repr

/-- Calls made by the frame driver and by the queued closures. -/
inductive FrameEffect where
  | instance_focus_out
  | instance_focus_in
  | instance_pause
  | instance_resume
  | iteration
  | postFrameCallback64
deriving DecidableEq, Repr

/-- The module with its dispatcher `data->thread`, the answer of
`instance->is_started()`, the number of frame callbacks registered with the
choreographer and not yet fired, and the calls made so far. -/
structure FrameDriver where
  module : GodotModule
  started : Bool
  thread : AndroidThread EngineTask
  pending : Nat
  log : List FrameEffect
deriving DecidableEq, Repr

/-- The driver of a fresh process: the singleton module, an idle dispatcher,
no callback registered. -/
def FrameDriver.start : FrameDriver :=
  { module := GodotModule.singleton, started := false,
    thread := AndroidThread.create EngineTask, pending := 0, log := [] }

/-- Who calls a lifecycle function: whether the call is made on the
dispatcher thread, and whether the pipe writes of the two `enqueue` calls
(engine closure, frame callback registration) write their byte. -/
structure Caller where
  ownThread : Bool
  writeTask : Bool
  writeFrame : Bool
deriving DecidableEq, Repr

/-- A caller on a thread other than the dispatcher thread whose pipe writes
succeed. -/
def Caller.other : Caller :=
  { ownThread := false, writeTask := true, writeFrame := true }

/-- Models `GodotModule::is_paused()` (lines 473-477): the `paused` field. -/
def GodotModule.is_paused (self : GodotModule) : Bool :=
  self._data.paused

/-- Models `AChoreographer_postFrameCallback64(choreographer, frameCallback64,
data)`: one more callback is registered. -/
def FrameDriver.postFrameCallback64 (s : FrameDriver) : FrameDriver :=
  { s with pending := s.pending + 1, log := s.log ++ [FrameEffect.postFrameCallback64] }

/-- The body `if (_instance) { _instance->f(); }` of a queued closure. -/
def FrameDriver.callInstance (s : FrameDriver) (e : FrameEffect) : FrameDriver :=
  match s.module._instance with
  | some _ => { s with log := s.log ++ [e] }
  | none => s

/-- Runs a closure.  `mutexHeld` tells whether the running thread already
holds `_mutex`: the four engine closures start with
`std::lock_guard lock(_mutex)`, the registration closure takes no lock. -/
def EngineTask.run (task : EngineTask) (mutexHeld : Bool) (s : FrameDriver) :
    Outcome × FrameDriver :=
  match task with
  | .postFrameCallback => (.returned, s.postFrameCallback64)
  | .focus_out =>
      if mutexHeld then (.selfDeadlock, s)
      else (.returned, s.callInstance .instance_focus_out)
  | .focus_in =>
      if mutexHeld then (.selfDeadlock, s)
      else (.returned, s.callInstance .instance_focus_in)
  | .pause =>
      if mutexHeld then (.selfDeadlock, s)
      else (.returned, s.callInstance .instance_pause)
  | .resume =>
      if mutexHeld then (.selfDeadlock, s)
      else (.returned, s.callInstance .instance_resume)

/-- The call `data->thread.enqueue(task)` made inside a lifecycle function,
which holds `_mutex`: a task handed back for inline execution runs at once,
with the mutex held. -/
def FrameDriver.enqueue (s : FrameDriver) (ownThread : Bool) (task : EngineTask)
    (writeOk : Bool) : Outcome × FrameDriver :=
  match s.thread.enqueue ownThread task writeOk with
  | (th, some t) => t.run true { s with thread := th }
  | (th, none) => (.returned, { s with thread := th })

/-- Models `GodotModule::updateState()` (lines 518-530). -/
def FrameDriver.updateState (s : FrameDriver) (c : Caller) : Outcome × FrameDriver :=
  if s.module._data.in_background || s.module._data.paused then
    (.returned, s)
  else
    s.enqueue c.ownThread .postFrameCallback c.writeFrame

/-- Assignment to fields of `data`. -/
def FrameDriver.setData (s : FrameDriver) (f : AndroidPlatformData → AndroidPlatformData) :
    FrameDriver :=
  { s with module := { s.module with _data := f s.module._data } }

/-- The tail shared by the four lifecycle functions that queue an engine
closure: `data->thread.enqueue(closure); updateState();`. -/
def FrameDriver.enqueueThenUpdate (s : FrameDriver) (c : Caller) (task : EngineTask) :
    Outcome × FrameDriver :=
  match s.enqueue c.ownThread task c.writeTask with
  | (.returned, s1) => s1.updateState c
  | stuck => stuck

/-- Models `GodotModule::focus_out()` (lines 447-458). -/
def FrameDriver.focus_out (s : FrameDriver) (c : Caller) : Outcome × FrameDriver :=
  (s.setData (fun d => { d with in_background := true })).enqueueThenUpdate c .focus_out

/-- Models `GodotModule::focus_in()` (lines 460-471). -/
def FrameDriver.focus_in (s : FrameDriver) (c : Caller) : Outcome × FrameDriver :=
  (s.setData (fun d => { d with in_background := false })).enqueueThenUpdate c .focus_in

/-- Models `GodotModule::appPause()` (lines 479-490). -/
def FrameDriver.appPause (s : FrameDriver) (c : Caller) : Outcome × FrameDriver :=
  (s.setData (fun d => { d with in_background := true })).enqueueThenUpdate c .pause

/-- Models `GodotModule::appResume()` (lines 492-502): no field of `data` is
assigned. -/
def FrameDriver.appResume (s : FrameDriver) (c : Caller) : Outcome × FrameDriver :=
  s.enqueueThenUpdate c .resume

/-- Models `GodotModule::pause()` (lines 504-509). -/
def FrameDriver.pause (s : FrameDriver) (c : Caller) : Outcome × FrameDriver :=
  (s.setData (fun d => { d with paused := true })).updateState c

/-- Models `GodotModule::resume()` (lines 511-516). -/
def FrameDriver.resume (s : FrameDriver) (c : Caller) : Outcome × FrameDriver :=
  (s.setData (fun d => { d with paused := false })).updateState c

/-- Models `frameCallback64(frameTimeNanos, data)` (lines 233-246), the body
run when a registered callback fires. -/
def frameCallback64 (s : FrameDriver) : FrameDriver :=
  if !s.module.is_paused then
    match s.module._instance with
    | none => s
    | some _ =>
      let s1 := if s.started then { s with log := s.log ++ [FrameEffect.iteration] } else s
      s1.postFrameCallback64
  else
    s

/-- The choreographer fires one registered callback, if there is one: the
registration is used up and the callback body runs. -/
def FrameDriver.fire (s : FrameDriver) : FrameDriver :=
  if s.pending = 0 then s
  else frameCallback64 { s with pending := s.pending - 1 }

/-- The looper invokes `looper_callback` once and runs the closure it pops;
the looper thread does not hold `_mutex`. -/
def FrameDriver.runTask (s : FrameDriver) : FrameDriver :=
  match s.thread.looper_callback with
  | (th, some t) => (t.run false { s with thread := th }).2
  | (th, none) => { s with thread := th }

/-- A call of `get_or_create_instance` seen by the frame driver: the module
changes as the call says, a new instance answers `is_started()` with the
result of its `start()`, and the registration made at line 351 counts. -/
def FrameDriver.create (s : FrameDriver) (env : Platform) (args : List String) :
    FrameDriver :=
  let out := s.module.get_or_create_instance env args
  let posted := out.effects.count Effect.postFrameCallback64
  { s with
    module := out.module,
    started :=
      match s.module._instance, out.result with
      | none, some inst => env.start inst
      | _, _ => s.started,
    pending := s.pending + posted,
    log := s.log ++ List.replicate posted FrameEffect.postFrameCallback64 }

/-- Steps of the frame driver model.  The lifecycle calls come from a thread
other than the dispatcher thread and their pipe writes succeed. -/
inductive FrameStep where
  | create (env : Platform) (args : List String)
  | pause
  | resume
  | focus_in
  | focus_out
  | appPause
  | appResume
  /-- The dispatcher runs the next queued closure. -/
  | runTask
  /-- A registered frame callback fires. -/
  | fire

/-- Effect of one step of the frame driver model. -/
def FrameDriver.step (s : FrameDriver) : FrameStep → FrameDriver
  | .create env args => s.create env args
  | .pause => (s.pause Caller.other).2
  | .resume => (s.resume Caller.other).2
  | .focus_in => (s.focus_in Caller.other).2
  | .focus_out => (s.focus_out Caller.other).2
  | .appPause => (s.appPause Caller.other).2
  | .appResume => (s.appResume Caller.other).2
  | .runTask => s.runTask
  | .fire => s.fire

/-- Runs a finite sequence of steps of the frame driver model. -/
def FrameDriver.run (s : FrameDriver) (steps : List FrameStep) : FrameDriver :=
  steps.foldl FrameDriver.step s

/-- A driver whose engine runs in the background: instance 5, started,
`in_background` set, `paused` clear, no callback registered. -/
def FrameDriver.backgrounded : FrameDriver :=
  { FrameDriver.start with
    module := { _instance := some 5,
                _data := { GodotModule.singleton._data with in_background := true } },
    started := true }

/-! ## Life of the module: creation and destruction calls -/

/-- A call of `get_or_create_instance` or of `destroy_instance`, each with the
surroundings it meets. -/
inductive LifeStep where
  | create (env : Platform) (args : List String)
  | destroy (env : DestroyPlatform)

/-- The module together with all calls it has made so far. -/
structure LifeRun where
  module : GodotModule
  effects : List Effect
deriving DecidableEq, Repr

/-- The module of a fresh process. -/
def LifeRun.start : LifeRun :=
  { module := GodotModule.singleton, effects := [] }

/-- Effect of one call on the module and on the log. -/
def LifeRun.step (r : LifeRun) : LifeStep → LifeRun
  | .create env args =>
    let out := r.module.get_or_create_instance env args
    { module := out.module, effects := r.effects ++ out.effects }
  | .destroy env =>
    let out := r.module.destroy_instance env
    { module := out.module, effects := r.effects ++ out.effects }

/-- Runs a finite sequence of calls. -/
def LifeRun.run (r : LifeRun) (steps : List LifeStep) : LifeRun :=
  steps.foldl LifeRun.step r

/-- The library handles that a log leaves loaded: `dlopen` loads its result,
`dlclose` unloads its argument. -/
def loadedHandles (effects : List Effect) : List Nat :=
  effects.foldl (fun loaded e =>
    match e with
    | Effect.dlopen (some h) => loaded ++ [h]
    | Effect.dlclose h => loaded.erase h
    | _ => loaded) []

/-- The entry points called by a log, in call order: creation and destroy
entry points alike. -/
def calledEntryPoints : List Effect → List Nat
  | [] => []
  | Effect.create_godot_instance fn _ _ :: rest => fn :: calledEntryPoints rest
  | Effect.destroy_godot_instance fn _ :: rest => fn :: calledEntryPoints rest
  | _ :: rest => calledEntryPoints rest

/-! ## Consistency of the callback registry -/

/-- Every handle of the handle-to-name map names a window that has an entry in
the name-to-callback map. -/
def GodotModule.handlesHaveCallbacks (self : GodotModule) : Bool :=
  self._data.handleToWindowName.all (fun e =>
    mapContains self._data.windowUpdateCallbacks e.2)

/-! ## Commands and tasks of the dispatcher -/

theorem tasksVia_append {τ : Type} (r : Route) (xs ys : List (Route × τ)) :
    tasksVia r (xs ++ ys) = tasksVia r xs ++ tasksVia r ys := by
  simp [tasksVia, List.filter_append]

theorem tasksVia_single_same {τ : Type} (r : Route) (x : τ) :
    tasksVia r [(r, x)] = [x] := by
  simp [tasksVia]

theorem tasksVia_single_other {τ : Type} (r r2 : Route) (x : τ) (h : r2 ≠ r) :
    tasksVia r [(r2, x)] = [] := by
  simp [tasksVia, h]

/-- One `looper_callback` either leaves the queue alone and runs nothing, or
pops the front task and runs it. -/
theorem looper_callback_tasks {τ : Type} (th : AndroidThread τ) :
    (th.looper_callback.2 = none ∧ th.looper_callback.1.tasks = th.tasks) ∨
    (∃ g, th.looper_callback.2 = some g ∧ th.tasks = g :: th.looper_callback.1.tasks) := by
  unfold AndroidThread.looper_callback
  cases hp : th.pipe with
  | nil => simp
  | cons cmd rest =>
    by_cases hc : cmd = CMD_FUNCTION
    · cases ht : th.tasks with
      | nil => simp [hc, ht]
      | cons g more => simp [hc, ht]
    · by_cases he : cmd = CMD_EXIT
      · dsimp only
        rw [if_neg hc, if_pos he]
        exact Or.inl ⟨rfl, rfl⟩
      · dsimp only
        rw [if_neg hc, if_neg he]
        exact Or.inl ⟨rfl, rfl⟩

theorem step_ordered {τ : Type} (s : DispatcherRun τ) (st : DispatcherStep τ)
    (h : s.Ordered) : (s.step st).Ordered := by
  obtain ⟨hq, hi⟩ := h
  cases st with
  | enqueueOther f w =>
    have ht : (s.thread.enqueue false f w).1.tasks = s.thread.tasks ++ [f] := by
      cases w <;> simp [AndroidThread.enqueue]
    constructor
    · simp only [DispatcherRun.step, ht, tasksVia_append, tasksVia_single_same]
      rw [← List.append_assoc, hq]
    · simp only [DispatcherRun.step, tasksVia_append]
      rw [tasksVia_single_other Route.inline Route.queued f (by decide), List.append_nil]
      exact hi
  | enqueueSelf f =>
    constructor
    · simp only [DispatcherRun.step, AndroidThread.enqueue, if_true, tasksVia_append]
      rw [tasksVia_single_other Route.queued Route.inline f (by decide), List.append_nil,
        List.append_nil]
      exact hq
    · simp only [DispatcherRun.step, AndroidThread.enqueue, if_true, tasksVia_append,
        tasksVia_single_same]
      rw [hi]
  | process =>
    rcases looper_callback_tasks s.thread with ⟨h2, h1⟩ | ⟨g, h2, h1⟩
    · have hs : s.step DispatcherStep.process = { s with thread := s.thread.looper_callback.1 } := by
        simp only [DispatcherRun.step]
        rcases hlc : s.thread.looper_callback with ⟨th, o⟩
        rw [hlc] at h2
        simp only at h2
        subst h2
        rfl
      rw [hs]
      exact ⟨by simpa [h1] using hq, hi⟩
    · have hs : s.step DispatcherStep.process =
          { s with thread := s.thread.looper_callback.1,
                   executed := s.executed ++ [(Route.queued, g)] } := by
        simp only [DispatcherRun.step]
        rcases hlc : s.thread.looper_callback with ⟨th, o⟩
        rw [hlc] at h2
        simp only at h2
        subst h2
        rfl
      rw [hs]
      constructor
      · simp only [tasksVia_append, tasksVia_single_same]
        rw [List.append_assoc, List.singleton_append, ← h1]
        exact hq
      · simp only [tasksVia_append]
        rw [tasksVia_single_other Route.inline Route.queued g (by decide), List.append_nil]
        exact hi

theorem run_ordered {τ : Type} (steps : List (DispatcherStep τ)) (s : DispatcherRun τ)
    (h : s.Ordered) : (s.run steps).Ordered := by
  induction steps generalizing s with
  | nil => exact h
  | cons st rest ih => exact ih (s.step st) (step_ordered s st h)

theorem start_ordered (τ : Type) : (DispatcherRun.start τ).Ordered := by
  simp [DispatcherRun.Ordered, DispatcherRun.start, AndroidThread.create, tasksVia]

/-- C1, as stated, fails: in `interleavedRun` the tasks are submitted in the
order 0, 1, 2 and executed in the order 0, 2, 1 (all three have run), so the
execution order is neither equal to nor a prefix of the submission order. -/
theorem C1_counterexample :
    tasksOf interleavedRun.submitted = [0, 1, 2] ∧
    tasksOf interleavedRun.executed = [0, 2, 1] ∧
    interleavedRun.thread.tasks = [] ∧
    ¬ (tasksOf interleavedRun.executed <+: tasksOf interleavedRun.submitted) := by
  decide

/-- C1, amended: after every finite sequence of steps from the initial state,
the tasks enqueued from other threads have been executed in their submission
order (those executed so far, followed by those still in the queue, are
exactly the queued submissions in order), and the tasks enqueued from the
dispatcher thread have all been executed, in their submission order. -/
theorem C1_dispatcher_order {τ : Type} (steps : List (DispatcherStep τ)) :
    tasksVia Route.queued ((DispatcherRun.start τ).run steps).executed
        ++ ((DispatcherRun.start τ).run steps).thread.tasks
      = tasksVia Route.queued ((DispatcherRun.start τ).run steps).submitted ∧
    tasksVia Route.inline ((DispatcherRun.start τ).run steps).executed
      = tasksVia Route.inline ((DispatcherRun.start τ).run steps).submitted :=
  run_ordered steps (DispatcherRun.start τ) (start_ordered τ)

/-! ## runOnGodotThread on the dispatcher thread (C2) -/

/-- C2, the code at the failing input: `runOnGodotThread(f, true)` called on
the dispatcher thread `d` runs `f` once and then locks `waitMutex`, which the
same thread has held since line 645: the call ends in a self-deadlock and
does not return.  With `wait == false` the call runs `f` once and returns. -/
theorem C2_runOnGodotThread_own_thread (d : ThreadId) (f : Nat) (writeOk : Bool)
    (s : WaitState) :
    runOnGodotThread d d f true writeOk s =
      (Outcome.selfDeadlock,
        { s with ran := s.ran ++ [f], waitMutex := some d, ready := false }) ∧
    runOnGodotThread d d f false writeOk s =
      (Outcome.returned, { s with ran := s.ran ++ [f] }) := by
  simp [runOnGodotThread, AndroidThread.enqueue, GodotTask.invoke, std_mutex_lock]

/-! ## Value bridge (C3 to C6) -/

/-- The search `highBit` finds the position of the leading bit. -/
theorem highBit_spec (fuel m : Nat) (h1 : 1 ≤ m) (h2 : m < 2 ^ fuel) :
    2 ^ highBit fuel m ≤ m ∧ m < 2 ^ (highBit fuel m + 1) := by
  induction fuel generalizing m with
  | zero => simp at h2; omega
  | succ n ih =>
    unfold highBit
    by_cases hm : m < 2
    · rw [if_pos hm]; simp; omega
    · rw [if_neg hm]
      have h3 : 1 ≤ m / 2 := by omega
      have h4 : m / 2 < 2 ^ n := by
        rw [pow_succ] at h2; omega
      obtain ⟨ha, hb⟩ := ih (m / 2) h3 h4
      constructor
      · rw [pow_succ]; omega
      · rw [pow_succ]; omega

/-- A positive integer up to 2^53 is encoded without rounding. -/
theorem fieldsOfNat_exact (m : Nat) (h1 : 1 ≤ m) (h2 : m ≤ 2 ^ 53) :
    (Double.fieldsOfNat m).1 < 2 ^ 11 ∧ (Double.fieldsOfNat m).2 < 2 ^ 52 ∧
      Double.magnitudeOf (Double.fieldsOfNat m).1 (Double.fieldsOfNat m).2 = m := by
  obtain ⟨ha, hb⟩ := highBit_spec 64 m h1 (by omega)
  unfold Double.fieldsOfNat Double.magnitudeOf
  generalize highBit 64 m = e at ha hb
  have he : e ≤ 53 := by
    by_contra hc
    have : 2 ^ 54 ≤ 2 ^ e := Nat.pow_le_pow_right (by decide) (by omega)
    omega
  by_cases h53 : e = 53
  · subst h53
    have hm : m = 2 ^ 53 := by omega
    subst hm
    decide
  · have he2 : e ≤ 52 := by omega
    interval_cases e <;> simp at ha hb ⊢ <;> omega

/-- The conversion `(double)i` is exact for every integer of magnitude at most
2^53: the double it yields has the integer value `i`. -/
theorem ofInt64_toInt (i : Int) (h : i.natAbs ≤ 2 ^ 53) : (Double.ofInt64 i).toInt = i := by
  by_cases h0 : i = 0
  · subst h0; decide
  · have h1 : 1 ≤ i.natAbs := by omega
    obtain ⟨hA, hB, hC⟩ := fieldsOfNat_exact i.natAbs h1 h
    unfold Double.ofInt64 Double.toInt
    rw [if_neg h0]
    dsimp only
    generalize (Double.fieldsOfNat i.natAbs).1 = E at hA hC
    generalize (Double.fieldsOfNat i.natAbs).2 = F at hB hC
    by_cases hn : i < 0
    · rw [if_pos hn]
      have e1 : (1 * 2 ^ 63 + E * 2 ^ 52 + F) / 2 ^ 52 % 2 ^ 11 = E := by omega
      have e2 : (1 * 2 ^ 63 + E * 2 ^ 52 + F) % 2 ^ 52 = F := by omega
      have e3 : (1 * 2 ^ 63 + E * 2 ^ 52 + F) / 2 ^ 63 = 1 := by omega
      rw [e1, e2, e3, hC, if_pos rfl]
      omega
    · rw [if_neg hn]
      have e1 : (0 * 2 ^ 63 + E * 2 ^ 52 + F) / 2 ^ 52 % 2 ^ 11 = E := by omega
      have e2 : (0 * 2 ^ 63 + E * 2 ^ 52 + F) % 2 ^ 52 = F := by omega
      have e3 : (0 * 2 ^ 63 + E * 2 ^ 52 + F) / 2 ^ 63 = 0 := by omega
      rw [e1, e2, e3, hC, if_neg (by decide)]
      omega

/-- C3, as stated, fails: the engine integer 1 comes back as the engine float
1.0 (bit pattern 0x3FF0000000000000), a value of another category; and the
two engine integers 2^53 and 2^53 + 1 come back as the same value. -/
theorem C3_counterexample :
    roundTrip JsiWorkletContext.sample 0 (Variant.INT 1)
      = .ok (Variant.FLOAT ⟨0x3FF0000000000000⟩) ∧
    roundTrip JsiWorkletContext.sample 0 (Variant.INT 1) ≠ .ok (Variant.INT 1) ∧
    roundTrip JsiWorkletContext.sample 0 (Variant.INT (2 ^ 53 + 1))
      = roundTrip JsiWorkletContext.sample 0 (Variant.INT (2 ^ 53)) := by
  decide

/-- C3, amended: a `BOOL` value and a `FLOAT` value come back unchanged (same
category, same value); an `INT` value `i` comes back as the `FLOAT` value
`(double)i`, whose numeric value is `i` itself when `|i| ≤ 2^53`. -/
theorem C3_roundTrip_atomic (wc : JsiWorkletContext) (rt : Nat) :
    (∀ b : Bool, roundTrip wc rt (Variant.BOOL b) = .ok (Variant.BOOL b)) ∧
    (∀ d : Double, roundTrip wc rt (Variant.FLOAT d) = .ok (Variant.FLOAT d)) ∧
    (∀ i : Int, roundTrip wc rt (Variant.INT i) = .ok (Variant.FLOAT (Double.ofInt64 i))) ∧
    (∀ i : Int, i.natAbs ≤ 2 ^ 53 → (Double.ofInt64 i).toInt = i) :=
  ⟨fun _ => rfl, fun _ => rfl, fun _ => rfl, ofInt64_toInt⟩

/-- C4, the code at the failing input: the one-character engine string U+00E9
has the UTF-8 bytes C3 A9 and length 1, so one byte is handed to the host; the
host string is U+FFFD, the value that comes back is the string U+FFFD, and
the engine strings U+00E9 and U+00E8 give the same host string. -/
theorem C4_string_truncated :
    godotVariantToJsiValue JsiWorkletContext.sample 0 (Variant.STRING [0xE9])
      = .ok (JsiValue.string [0xFFFD]) ∧
    roundTrip JsiWorkletContext.sample 0 (Variant.STRING [0xE9])
      = .ok (Variant.STRING [0xFFFD]) ∧
    godotVariantToJsiValue JsiWorkletContext.sample 0 (Variant.STRING [0xE9])
      = godotVariantToJsiValue JsiWorkletContext.sample 0 (Variant.STRING [0xE8]) := by
  decide

/-- C5: an engine value of a proxied category (math or geometric aggregate,
`COLOR`, `NODE_PATH`, `RID`, non-null `OBJECT`, `CALLABLE`, `SIGNAL`,
`DICTIONARY`) becomes a host object wrapping that value and comes back
unchanged; a null `OBJECT` becomes host null, which comes back as nil. -/
theorem C5_roundTrip_proxy (wc : JsiWorkletContext) (rt : Nat) (v : Variant)
    (h : v.isProxied = true) :
    godotVariantToJsiValue wc rt v = .ok (JsiValue.object (JsiObject.hostObject wc v)) ∧
    roundTrip wc rt v = .ok v ∧
    godotVariantToJsiValue wc rt (Variant.OBJECT 0) = .ok JsiValue.null ∧
    jsiValueToGodotVariant wc rt JsiValue.null = .ok Variant.NIL := by
  refine ⟨?_, ?_, rfl, rfl⟩
  · cases v <;> try (simp [Variant.isProxied, Variant.get_type, VariantType.isMath] at h)
    all_goals first | rfl | simp [godotVariantToJsiValue, h]
  · cases v <;> try (simp [Variant.isProxied, Variant.get_type, VariantType.isMath] at h)
    all_goals first | rfl | simp [roundTrip, godotVariantToJsiValue, h, jsiValueToGodotVariant]

/-- C5 at the non-null `OBJECT` with pointer 12. -/
theorem C5_roundTrip_proxy_witness :
    (Variant.OBJECT 12).isProxied = true ∧
    (godotVariantToJsiValue JsiWorkletContext.sample 0 (Variant.OBJECT 12)
        = .ok (JsiValue.object (JsiObject.hostObject JsiWorkletContext.sample (Variant.OBJECT 12))) ∧
     roundTrip JsiWorkletContext.sample 0 (Variant.OBJECT 12) = .ok (Variant.OBJECT 12) ∧
     godotVariantToJsiValue JsiWorkletContext.sample 0 (Variant.OBJECT 0) = .ok JsiValue.null ∧
     jsiValueToGodotVariant JsiWorkletContext.sample 0 JsiValue.null = .ok Variant.NIL) :=
  ⟨by decide, C5_roundTrip_proxy JsiWorkletContext.sample 0 (Variant.OBJECT 12) (by decide)⟩

/-- C6: `godotVariantToJsiValue` fails exactly for `ARRAY`, the ten packed
array categories and a category outside the dispatch; the message is
"Arrays not supported yet." exactly for `ARRAY` and
"Packed Arrays not supported yet." exactly for the packed array categories;
for every other category it returns a host value. -/
theorem C6_conversion_failures (wc : JsiWorkletContext) (rt : Nat) (v : Variant) :
    ((∃ e, godotVariantToJsiValue wc rt v = .error e) ↔
      (v.get_type = VariantType.ARRAY ∨ v.get_type.isPackedArray = true
        ∨ v.get_type.isListed = false)) ∧
    (godotVariantToJsiValue wc rt v = .error "Arrays not supported yet."
      ↔ v.get_type = VariantType.ARRAY) ∧
    (godotVariantToJsiValue wc rt v = .error "Packed Arrays not supported yet."
      ↔ v.get_type.isPackedArray = true) ∧
    ((∃ j, godotVariantToJsiValue wc rt v = .ok j) ↔
      ¬ (v.get_type = VariantType.ARRAY ∨ v.get_type.isPackedArray = true
        ∨ v.get_type.isListed = false)) := by
  cases v <;>
    simp [godotVariantToJsiValue, Variant.get_type, VariantType.isPackedArray,
      VariantType.isListed]
  split <;> simp

/-! ## JavascriptCallable (C7, C8) -/

/-- C7, the code at the failing input: two distinct wrappers of the host
function 5, both for the JS lane, one made with context 1 and one with
context 2, compare equal when both contexts are alive, and also when only
context 1 is alive. -/
theorem C7_compare_equal_other_context :
    JavascriptCallable.compare_equal (fun _ => true)
      (some ⟨100, CallableCustom.javascript
        ⟨JsiWorkletContext.sample, false, FuncValue.function 5⟩⟩)
      (some ⟨200, CallableCustom.javascript
        ⟨JsiWorkletContext.second, false, FuncValue.function 5⟩⟩) = true ∧
    JavascriptCallable.compare_equal (fun id => decide (id = 1))
      (some ⟨100, CallableCustom.javascript
        ⟨JsiWorkletContext.sample, false, FuncValue.function 5⟩⟩)
      (some ⟨200, CallableCustom.javascript
        ⟨JsiWorkletContext.second, false, FuncValue.function 5⟩⟩) = true ∧
    JsiWorkletContext.sample ≠ JsiWorkletContext.second := by
  decide

/-- C8: when the worklet context of a `JavascriptCallable` no longer exists,
`call` sets the error code to `INVALID_METHOD`, invokes no host function,
dispatches to no lane, and leaves the return value unchanged. -/
theorem C8_call_expired_context (live : Nat → Bool)
    (hostFunction : Nat → List JsiValue → Except String JsiValue)
    (self : JavascriptCallable) (p_arguments : List Variant) (st : CallState)
    (h : live self._workletContext.id = false) :
    (self.call live hostFunction p_arguments st).1.r_call_error.error
      = GDExtensionCallErrorType.CALL_ERROR_INVALID_METHOD ∧
    (self.call live hostFunction p_arguments st).1.hostCalls = st.hostCalls ∧
    (self.call live hostFunction p_arguments st).2 = [] ∧
    (self.call live hostFunction p_arguments st).1.r_return_value = st.r_return_value ∧
    (self.call live hostFunction p_arguments st).1.thrown = st.thrown := by
  simp [JavascriptCallable.call, weak_lock, h, CallState.setError]

/-- C8 at a wrapper of host function 5 whose context 1 is gone, called with
one argument. -/
theorem C8_call_expired_context_witness :
    (fun _ : Nat => false) JsiWorkletContext.sample.id = false ∧
    (JavascriptCallable.call (fun _ => false) (fun _ _ => .ok JsiValue.undefined)
        ⟨JsiWorkletContext.sample, true, FuncValue.function 5⟩ [Variant.INT 3]
        CallState.fresh).1.r_call_error.error
      = GDExtensionCallErrorType.CALL_ERROR_INVALID_METHOD ∧
    (JavascriptCallable.call (fun _ => false) (fun _ _ => .ok JsiValue.undefined)
        ⟨JsiWorkletContext.sample, true, FuncValue.function 5⟩ [Variant.INT 3]
        CallState.fresh).1.hostCalls = [] ∧
    (JavascriptCallable.call (fun _ => false) (fun _ _ => .ok JsiValue.undefined)
        ⟨JsiWorkletContext.sample, true, FuncValue.function 5⟩ [Variant.INT 3]
        CallState.fresh).2 = [] ∧
    (JavascriptCallable.call (fun _ => false) (fun _ _ => .ok JsiValue.undefined)
        ⟨JsiWorkletContext.sample, true, FuncValue.function 5⟩ [Variant.INT 3]
        CallState.fresh).1.r_return_value = Variant.NIL ∧
    (JavascriptCallable.call (fun _ => false) (fun _ _ => .ok JsiValue.undefined)
        ⟨JsiWorkletContext.sample, true, FuncValue.function 5⟩ [Variant.INT 3]
        CallState.fresh).1.thrown = none :=
  ⟨rfl, C8_call_expired_context (fun _ => false) (fun _ _ => .ok JsiValue.undefined)
    ⟨JsiWorkletContext.sample, true, FuncValue.function 5⟩ [Variant.INT 3] CallState.fresh rfl⟩

/-! ## Instance creation (C9, C10) -/

theorem createCalls_append (a b : List Effect) :
    createCalls (a ++ b) = createCalls a ++ createCalls b := by
  induction a with
  | nil => rfl
  | cons e rest ih => cases e <;> simp [createCalls, ih]

theorem openedHandles_append (a b : List Effect) :
    openedHandles (a ++ b) = openedHandles a ++ openedHandles b := by
  induction a with
  | nil => rfl
  | cons e rest ih =>
    cases e with
    | dlopen r => cases r <;> simp [openedHandles, ih]
    | _ => simp [openedHandles, ih]

theorem closedHandles_append (a b : List Effect) :
    closedHandles (a ++ b) = closedHandles a ++ closedHandles b := by
  induction a with
  | nil => rfl
  | cons e rest ih => cases e <;> simp [closedHandles, ih]

/-- When the entry point is reached, the resolution step succeeds: it calls
neither the entry point nor `dlclose`, arms no frame callback, opens exactly
the handle it returns, and changes the module at most in the cached entry
point, which it sets only when it opened the library or the build is static. -/
theorem resolveCreate_reached (self : GodotModule) (env : Platform)
    (h : self.reachesCreate env) :
    ∃ m1 handle fn eff1, self.resolveCreate env = .ok (m1, handle, fn, eff1) ∧
      createCalls eff1 = [] ∧ closedHandles eff1 = [] ∧
      openedHandles eff1 = handle.toList ∧
      Effect.postFrameCallback64 ∉ eff1 ∧
      m1._instance = self._instance ∧ m1._data.handle = self._data.handle ∧
      ((handle = none ∧ (m1 = self ∨ env.LIBGODOT_STATIC = true)) ∨
       (handle ≠ none ∧
        { m1 with _data := { m1._data with
            func_libgodot_create_godot_instance_android := none } } = self)) := by
  obtain ⟨_, hr⟩ := h
  unfold GodotModule.resolveCreate
  cases hf : self._data.func_libgodot_create_godot_instance_android with
  | some fn =>
    exact ⟨self, none, fn, [], rfl, rfl, rfl, rfl, by simp, rfl, rfl,
      Or.inl ⟨rfl, Or.inl rfl⟩⟩
  | none =>
    cases hs : env.LIBGODOT_STATIC with
    | true =>
      dsimp only
      rw [if_pos rfl]
      exact ⟨_, none, env.static_create, [], rfl, rfl, rfl, rfl, by simp, rfl, rfl,
        Or.inl ⟨rfl, Or.inr rfl⟩⟩
    | false =>
      rcases hr with hr | hr | ⟨handle, fn, ho, hd⟩
      · exact absurd hf hr
      · rw [hs] at hr; exact absurd hr (by decide)
      · dsimp only
        rw [if_neg (by decide), ho]
        dsimp only
        rw [hd]
        refine ⟨_, some handle, fn, _, rfl, rfl, rfl, rfl, by simp, rfl, rfl,
          Or.inr ⟨by simp, ?_⟩⟩
        obtain ⟨i, dt⟩ := self
        obtain ⟨a1, a2, a3, a4, a5, a6, a7, a8, a9, a10⟩ := dt
        simp only at hf
        subst hf
        rfl

/-- A text without a NUL character is its own C string. -/
theorem std_string_c_str_of_no_nul (arg : String) (h : Char.ofNat 0 ∉ arg.data) :
    std_string_c_str arg = arg := by
  obtain ⟨chars⟩ := arg
  unfold std_string_c_str
  congr 1
  apply List.takeWhile_eq_self_iff.mpr
  intro ch hch
  have hne : ch ≠ Char.ofNat 0 := fun hz => h (hz ▸ hch)
  simpa using hne

/-- C9, as stated, fails: for the one argument made of `a`, a NUL character
and `b`, the creation entry point is reached and receives the vector
`["apk", "a"]`, whose second element is not the argument. -/
theorem C9_counterexample :
    GodotModule.singleton.reachesCreate Platform.sample ∧
    createCalls (GodotModule.singleton.get_or_create_instance Platform.sample
      [String.mk ['a', Char.ofNat 0, 'b']]).effects = [(2, ["apk", "a"])] ∧
    ["apk", "a"] ≠ "apk" :: [String.mk ['a', Char.ofNat 0, 'b']] :=
  ⟨⟨rfl, Or.inr (Or.inr ⟨7, 9, rfl, rfl⟩)⟩, by decide, by decide⟩

/-- C9, amended: when `get_or_create_instance(args)` reaches the creation
entry point, it calls it once, with an argument vector of length
`|args| + 1` whose first element is "apk" and whose remaining elements are
the elements of `args` in order, each as the C string its `c_str()` points
to (its text before the first NUL character); when no element of `args`
contains a NUL character the remaining elements are `args` themselves. -/
theorem C9_cmdline (self : GodotModule) (env : Platform) (args : List String)
    (h : self.reachesCreate env) :
    createCalls (self.get_or_create_instance env args).effects
      = [(args.length + 1, "apk" :: args.map std_string_c_str)] ∧
    ((∀ arg ∈ args, Char.ofNat 0 ∉ arg.data) →
      createCalls (self.get_or_create_instance env args).effects
        = [(args.length + 1, "apk" :: args)]) := by
  have hapk : std_string_c_str "apk" = "apk" := by decide
  have hmain : createCalls (self.get_or_create_instance env args).effects
      = [(args.length + 1, "apk" :: args.map std_string_c_str)] := by
    obtain ⟨m1, handle, fn, eff1, hres, hc, -, -, -, -, -, -⟩ := resolveCreate_reached self env h
    unfold GodotModule.get_or_create_instance
    rw [h.1, hres]
    dsimp only
    cases env.create_godot_instance (("apk" :: args).map std_string_c_str) with
    | none =>
      cases handle <;> simp [createCalls_append, hc, createCalls, hapk]
    | some inst =>
      cases hst : env.start inst <;> simp [hst, createCalls_append, hc, createCalls, hapk]
  refine ⟨hmain, fun hnul => ?_⟩
  rw [hmain]
  have hmap : args.map std_string_c_str = args := by
    have : ∀ arg ∈ args, std_string_c_str arg = id arg :=
      fun arg harg => std_string_c_str_of_no_nul arg (hnul arg harg)
    rw [List.map_congr_left this, List.map_id]
  rw [hmap]

/-- C9 (amended) at the arguments `["--scene", "foo"]`, which contain no NUL
character: the entry point receives `["apk", "--scene", "foo"]`, three
elements. -/
theorem C9_cmdline_witness :
    GodotModule.singleton.reachesCreate Platform.sample ∧
    createCalls (GodotModule.singleton.get_or_create_instance Platform.sample
      ["--scene", "foo"]).effects = [(3, ["apk", "--scene", "foo"])] :=
  ⟨⟨rfl, Or.inr (Or.inr ⟨7, 9, rfl, rfl⟩)⟩,
   (C9_cmdline GodotModule.singleton Platform.sample ["--scene", "foo"]
     ⟨rfl, Or.inr (Or.inr ⟨7, 9, rfl, rfl⟩)⟩).2 (by decide)⟩

/-- C10: when no instance exists and the creation entry point, once reached,
returns null, `get_or_create_instance` returns null, has called the entry
point exactly once, records no instance, arms no frame callback, has closed
every library handle it opened, has cleared the cached entry point if it
opened a handle, and leaves `data->handle` as it was; in the dynamically
loading build the whole module state is as before the call. -/
theorem C10_create_failure (self : GodotModule) (env : Platform) (args : List String)
    (h : self.reachesCreate env)
    (hnull : env.create_godot_instance (("apk" :: args).map std_string_c_str) = none) :
    (self.get_or_create_instance env args).result = none ∧
    (createCalls (self.get_or_create_instance env args).effects).length = 1 ∧
    (self.get_or_create_instance env args).module._instance = none ∧
    Effect.postFrameCallback64 ∉ (self.get_or_create_instance env args).effects ∧
    closedHandles (self.get_or_create_instance env args).effects
      = openedHandles (self.get_or_create_instance env args).effects ∧
    (openedHandles (self.get_or_create_instance env args).effects = [] ∨
      (self.get_or_create_instance env
        args).module._data.func_libgodot_create_godot_instance_android = none) ∧
    (self.get_or_create_instance env args).module._data.handle = self._data.handle ∧
    (env.LIBGODOT_STATIC = true ∨ (self.get_or_create_instance env args).module = self) := by
  obtain ⟨m1, handle, fn, eff1, hres, hc, hcl, hop, hpf, hi, hh, hrel⟩ :=
    resolveCreate_reached self env h
  have hinst := h.1
  have hm : m1._instance = none := hi.trans hinst
  unfold GodotModule.get_or_create_instance
  rw [hinst, hres]
  dsimp only
  rw [hnull]
  cases handle with
  | none =>
    have hrel2 : env.LIBGODOT_STATIC = true ∨ m1 = self := by
      rcases hrel with ⟨_, h1 | h1⟩ | ⟨h1, _⟩
      · exact Or.inr h1
      · exact Or.inl h1
      · exact absurd rfl h1
    simp [createCalls_append, closedHandles_append, openedHandles_append, hc, hcl, hop, hpf,
      createCalls, closedHandles, openedHandles, hm, hh, hrel2]
  | some hd =>
    have hrel2 : { m1 with _data := { m1._data with
            func_libgodot_create_godot_instance_android := none } } = self := by
      rcases hrel with ⟨h1, _⟩ | ⟨_, h1⟩
      · exact absurd h1 (by simp)
      · exact h1
    refine ⟨?_, ?_, ?_, ?_, ?_, ?_, ?_, Or.inr hrel2⟩ <;>
      simp [createCalls_append, closedHandles_append, openedHandles_append, hc, hcl, hop, hpf,
        createCalls, closedHandles, openedHandles, hm, hh]

/-- C10 on `Platform.sample`, where the library opens as handle 7 and the
engine returns null: the opened handle is closed again and the module is
the initial module. -/
theorem C10_create_failure_witness :
    GodotModule.singleton.reachesCreate Platform.sample ∧
    Platform.sample.create_godot_instance
      (("apk" :: ["--scene", "foo"]).map std_string_c_str) = none ∧
    ((GodotModule.singleton.get_or_create_instance Platform.sample
        ["--scene", "foo"]).result = none ∧
     (createCalls (GodotModule.singleton.get_or_create_instance Platform.sample
        ["--scene", "foo"]).effects).length = 1 ∧
     (GodotModule.singleton.get_or_create_instance Platform.sample
        ["--scene", "foo"]).module._instance = none ∧
     Effect.postFrameCallback64 ∉ (GodotModule.singleton.get_or_create_instance
        Platform.sample ["--scene", "foo"]).effects ∧
     closedHandles (GodotModule.singleton.get_or_create_instance Platform.sample
        ["--scene", "foo"]).effects
       = openedHandles (GodotModule.singleton.get_or_create_instance Platform.sample
        ["--scene", "foo"]).effects ∧
     (openedHandles (GodotModule.singleton.get_or_create_instance Platform.sample
        ["--scene", "foo"]).effects = [] ∨
       (GodotModule.singleton.get_or_create_instance Platform.sample
         ["--scene", "foo"]).module._data.func_libgodot_create_godot_instance_android = none) ∧
     (GodotModule.singleton.get_or_create_instance Platform.sample
        ["--scene", "foo"]).module._data.handle = GodotModule.singleton._data.handle ∧
     (Platform.sample.LIBGODOT_STATIC = true ∨
       (GodotModule.singleton.get_or_create_instance Platform.sample
         ["--scene", "foo"]).module = GodotModule.singleton)) :=
  ⟨⟨rfl, Or.inr (Or.inr ⟨7, 9, rfl, rfl⟩)⟩, rfl,
   C10_create_failure GodotModule.singleton Platform.sample ["--scene", "foo"]
     ⟨rfl, Or.inr (Or.inr ⟨7, 9, rfl, rfl⟩)⟩ rfl⟩

/-! ## Association maps -/

theorem mapFind_mapSet_same {κ ν : Type} [DecidableEq κ] (m : List (κ × ν)) (k : κ) (v : ν) :
    mapFind (mapSet m k v) k = some v := by
  induction m with
  | nil => simp [mapSet, mapFind]
  | cons e rest ih =>
    obtain ⟨k1, v1⟩ := e
    by_cases h : k1 = k
    · simp [mapSet, mapFind, h]
    · simp [mapSet, mapFind, h, ih]

theorem mapFind_mapSet_other {κ ν : Type} [DecidableEq κ] (m : List (κ × ν)) (k k2 : κ) (v : ν)
    (hne : k2 ≠ k) : mapFind (mapSet m k v) k2 = mapFind m k2 := by
  induction m with
  | nil => simp [mapSet, mapFind, Ne.symm hne]
  | cons e rest ih =>
    obtain ⟨k1, v1⟩ := e
    by_cases h : k1 = k
    · subst h
      simp [mapSet, mapFind, Ne.symm hne]
    · by_cases h2 : k1 = k2
      · subst h2
        simp [mapSet, mapFind, h]
      · simp [mapSet, mapFind, h, h2, ih]

theorem mapFind_mapErase_same {κ ν : Type} [DecidableEq κ] (m : List (κ × ν)) (k : κ) :
    mapFind (mapErase m k) k = none := by
  induction m with
  | nil => simp [mapErase, mapFind]
  | cons e rest ih =>
    obtain ⟨k1, v1⟩ := e
    by_cases h : k1 = k
    · simpa [mapErase, List.filter_cons, h] using ih
    · simpa [mapErase, List.filter_cons, h, mapFind] using ih

theorem mapFind_mapErase_other {κ ν : Type} [DecidableEq κ] (m : List (κ × ν)) (k k2 : κ)
    (hne : k2 ≠ k) : mapFind (mapErase m k) k2 = mapFind m k2 := by
  induction m with
  | nil => simp [mapErase, mapFind]
  | cons e rest ih =>
    obtain ⟨k1, v1⟩ := e
    by_cases h : k1 = k
    · subst h
      simpa [mapErase, List.filter_cons, mapFind, Ne.symm hne] using ih
    · by_cases h2 : k1 = k2
      · subst h2
        simp [mapErase, List.filter_cons, h, mapFind]
      · simpa [mapErase, List.filter_cons, h, mapFind, h2] using ih

/-! ## Instance destruction (C11) -/

/-- C11: when the module has no instance, `destroy_instance` is a no-op: the
whole module state (instance reference, library handle, cached entry points,
main surface, paused and background flags) is unchanged and no call is made,
so the destroy entry point is not invoked. -/
theorem C11_destroy_without_instance (self : GodotModule) (env : DestroyPlatform)
    (h : self._instance = none) :
    (self.destroy_instance env).module = self ∧ (self.destroy_instance env).effects = [] := by
  unfold GodotModule.destroy_instance
  rw [h]
  exact ⟨rfl, rfl⟩

/-- C11 at the module left by a creation and a `destroy_instance` that tore
the instance down: the immediately following `destroy_instance` changes
nothing and makes no call. -/
theorem C11_destroy_without_instance_witness :
    GodotModule.createdThenDestroyed._instance = none ∧
    ((GodotModule.createdThenDestroyed.destroy_instance DestroyPlatform.sample).module
        = GodotModule.createdThenDestroyed ∧
     (GodotModule.createdThenDestroyed.destroy_instance DestroyPlatform.sample).effects = []) :=
  ⟨by decide,
   C11_destroy_without_instance GodotModule.createdThenDestroyed DestroyPlatform.sample
     (by decide)⟩

/-! ## Window update callbacks (C12, C13) -/

/-- C12: when the handle is associated with the name `n`, registering it
under another name `n2` is rejected: the module, and with it the
name-to-callback map and the handle-to-name map, is unchanged. -/
theorem C12_register_other_name_rejected (self : GodotModule) (n n2 : String)
    (handle f ref : Nat)
    (hassoc : mapFind self._data.handleToWindowName handle = some n) (hne : n2 ≠ n) :
    self.registerWindowUpdateCallback n2 handle f ref = self := by
  unfold GodotModule.registerWindowUpdateCallback
  simp only [hassoc]
  rw [if_pos (Ne.symm hne)]

/-- C12 after `register("w", 1, 100, 11)`: `register("v", 1, 200, 22)` leaves
the module as it is. -/
theorem C12_register_other_name_rejected_witness :
    mapFind (runRegistry [.register "w" 1 100 11]).1._data.handleToWindowName 1 = some "w" ∧
    "v" ≠ "w" ∧
    (runRegistry [.register "w" 1 100 11]).1.registerWindowUpdateCallback "v" 1 200 22
      = (runRegistry [.register "w" 1 100 11]).1 :=
  ⟨by decide, by decide,
   C12_register_other_name_rejected (runRegistry [.register "w" 1 100 11]).1 "w" "v" 1 200 22
     (by decide) (by decide)⟩

/-- C13, the code at the failing input: after `register("w", 1, 100, 11)` and
`register("w", 2, 200, 22)`, handle 1 is associated with "w", and
`unregister(1)` releases the reference 22, the one supplied with handle 2;
handle 2 stays associated with "w" while the callback for "w" is gone; the
following `unregister(2)` releases the null reference.  The reference 11 is
never released. -/
theorem C13_unregister_releases_other_reference :
    mapFind (runRegistry [.register "w" 1 100 11,
      .register "w" 2 200 22]).1._data.handleToWindowName 1 = some "w" ∧
    (runRegistry [.register "w" 1 100 11, .register "w" 2 200 22, .unregister 1]).2 = [22] ∧
    mapFind (runRegistry [.register "w" 1 100 11, .register "w" 2 200 22,
      .unregister 1]).1._data.handleToWindowName 2 = some "w" ∧
    mapFind (runRegistry [.register "w" 1 100 11, .register "w" 2 200 22,
      .unregister 1]).1._data.windowUpdateCallbacks "w" = none ∧
    (runRegistry [.register "w" 1 100 11, .register "w" 2 200 22, .unregister 1,
      .unregister 2]).2 = [22, 0] := by
  decide

/-! ## Window registry (C14 to C18) -/

theorem initialize_registry_default (windowMap : WindowMap) (s : Option Nat) (w h : Int) :
    mapFind (LibGodot.initialize_registry windowMap s w h) ""
      = some (WindowData.create s w h 0) :=
  mapFind_mapSet_same windowMap "" _

theorem updateWindowEntry_find_other (windowMap : WindowMap) (name : String)
    (s : Option Nat) (w h : Int) (other : String) (hne : other ≠ name) :
    mapFind (LibGodot.updateWindowEntry windowMap name s w h).windowMap other
      = mapFind windowMap other := by
  unfold LibGodot.updateWindowEntry
  cases hf : mapFind windowMap name with
  | none => simp [mapContains, hf, mapFind_mapSet_other _ _ _ _ hne]
  | some d => simp [mapContains, hf, mapFind_mapSet_other _ _ _ _ hne]

theorem updateWindowEntry_find_same (windowMap : WindowMap) (name : String)
    (s : Option Nat) (w h : Int) :
    mapFind (LibGodot.updateWindowEntry windowMap name s w h).windowMap name
      = some { width := w, height := h, surface := s,
               id := match mapFind windowMap name with
                     | some d => d.id
                     | none => -1 } := by
  unfold LibGodot.updateWindowEntry
  cases hf : mapFind windowMap name with
  | none => simp [mapContains, hf, mapFind_mapSet_same, WindowData.create]
  | some d =>
    by_cases hs : d.surface = s
    · simp [mapContains, hf, mapFind_mapSet_same, hs]
    · simp [mapContains, hf, mapFind_mapSet_same, hs]

theorem updateWindowEntry_changeSurface (windowMap : WindowMap)
    (name : String) (s : Option Nat) (w h : Int) :
    (LibGodot.updateWindowEntry windowMap name s w h).changeSurface = true ↔
      (mapFind windowMap name = none ∨
        ∃ d, mapFind windowMap name = some d ∧ d.surface ≠ s) := by
  unfold LibGodot.updateWindowEntry
  cases hf : mapFind windowMap name with
  | none => simp [mapContains, hf]
  | some d => simp [mapContains, hf]

theorem removeWindowNative_find_default (windowMap : WindowMap) (started : Bool)
    (name : String) :
    mapFind (LibGodot.removeWindowNative windowMap started name).windowMap ""
      = mapFind windowMap "" := by
  unfold LibGodot.removeWindowNative
  by_cases h : name = ""
  · simp [h]
  · by_cases hc : mapContains windowMap name = true
    · simp [h, hc, mapFind_mapErase_other _ _ _ (Ne.symm h)]
    · simp [h, hc]

theorem task_run_find_default (t : WindowTask) (scene : Scene) (windowMap : WindowMap) :
    mapFind (t.run scene windowMap).windowMap "" = mapFind windowMap "" := by
  unfold WindowTask.run
  cases hr : t.resolve scene with
  | none => rfl
  | some r =>
    obtain ⟨w, effects⟩ := r
    by_cases hn : t.p_window_name = ""
    · have hw : w = 0 := by
        simp [WindowTask.resolve, hn] at hr
        exact hr.1.symm
      subst hw
      simp
    · dsimp only
      by_cases h0 : 0 ≤ w
      · by_cases hw : 0 < w ∧ mapContains windowMap t.p_window_name = true
        · cases hd : mapFind windowMap t.p_window_name with
          | none => simp [h0, hw, hd]
          | some d =>
            simp [h0, hw, hd, mapFind_mapSet_other _ _ _ _ (Ne.symm hn)]
        · simp [h0, hw]
      · simp [h0]

theorem task_run_find_other (t : WindowTask) (scene : Scene) (windowMap : WindowMap)
    (other : String) (hne : other ≠ t.p_window_name) :
    mapFind (t.run scene windowMap).windowMap other = mapFind windowMap other := by
  unfold WindowTask.run
  cases hr : t.resolve scene with
  | none => rfl
  | some r =>
    obtain ⟨k, effects⟩ := r
    dsimp only
    by_cases h0 : 0 ≤ k
    · by_cases hk : 0 < k ∧ mapContains windowMap t.p_window_name = true
      · cases hd : mapFind windowMap t.p_window_name with
        | none => simp [h0, hk, hd]
        | some d => simp [h0, hk, hd, mapFind_mapSet_other _ _ _ _ hne]
      · simp [h0, hk]
    · simp [h0]

theorem updateWindowNative_find_other (windowMap : WindowMap) (engine : Option Scene)
    (name : String) (s : Option Nat) (w h : Int) (other : String) (hne : other ≠ name) :
    mapFind (LibGodot.updateWindowNative windowMap engine name s w h).windowMap other
      = mapFind windowMap other := by
  unfold LibGodot.updateWindowNative
  cases engine with
  | none => exact updateWindowEntry_find_other windowMap name s w h other hne
  | some scene =>
    dsimp only
    rw [task_run_find_other _ _ _ _ hne]
    exact updateWindowEntry_find_other windowMap name s w h other hne

/-- For the default name the window-update task resolves the id 0 and leaves
the registry alone: the default entry keeps its id, or gets -1 when new. -/
theorem updateWindowNative_find_default (windowMap : WindowMap) (engine : Option Scene)
    (s : Option Nat) (w h : Int) :
    mapFind (LibGodot.updateWindowNative windowMap engine "" s w h).windowMap ""
      = some { width := w, height := h, surface := s,
               id := match mapFind windowMap "" with
                     | some d => d.id
                     | none => -1 } := by
  unfold LibGodot.updateWindowNative
  cases engine with
  | none => exact updateWindowEntry_find_same windowMap "" s w h
  | some scene =>
    dsimp only
    rw [task_run_find_default]
    exact updateWindowEntry_find_same windowMap "" s w h

theorem updateWindowNative_changeSurface (windowMap : WindowMap) (engine : Option Scene)
    (name : String) (s : Option Nat) (w h : Int) :
    (LibGodot.updateWindowNative windowMap engine name s w h).changeSurface = true ↔
      (mapFind windowMap name = none ∨
        ∃ d, mapFind windowMap name = some d ∧ d.surface ≠ s) := by
  have hcs : (LibGodot.updateWindowNative windowMap engine name s w h).changeSurface
      = (LibGodot.updateWindowEntry windowMap name s w h).changeSurface := by
    unfold LibGodot.updateWindowNative
    cases engine <;> rfl
  rw [hcs]
  exact updateWindowEntry_changeSurface windowMap name s w h

theorem updateWindowNative_warned (windowMap : WindowMap) (engine : Option Scene)
    (name : String) (s : Option Nat) (w h : Int) :
    (LibGodot.updateWindowNative windowMap engine name s w h).warned
      = (LibGodot.updateWindowEntry windowMap name s w h).warned := by
  unfold LibGodot.updateWindowNative
  cases engine <;> rfl

/-- A step that does not have to create the default entry keeps the id of the
default entry at 0. -/
theorem defaultIdZero_step (windowMap : WindowMap) (st : WindowStep)
    (h : DefaultIdZero windowMap) (hk : st.keepsDefault windowMap) :
    DefaultIdZero (st.apply windowMap) := by
  cases st with
  | update_window engine name s w ht =>
    intro d hd
    simp only [WindowStep.apply] at hd
    by_cases hn : name = ""
    · subst hn
      have hc := hk rfl
      rw [updateWindowNative_find_default] at hd
      cases hf : mapFind windowMap "" with
      | none => simp [mapContains, hf] at hc
      | some d0 =>
        rw [hf] at hd
        have := h d0 hf
        simp only [Option.some.injEq] at hd
        rw [← hd]
        exact this
    · rw [updateWindowNative_find_other _ _ _ _ _ _ _ (Ne.symm hn)] at hd
      exact h d hd
  | remove_window started name =>
    intro d hd
    simp only [WindowStep.apply, removeWindowNative_find_default] at hd
    exact h d hd
  | cleanup =>
    intro d hd
    simp [WindowStep.apply, LibGodot.cleanup, mapFind] at hd
  | task t scene =>
    intro d hd
    simp only [WindowStep.apply, task_run_find_default] at hd
    exact h d hd

theorem defaultIdZero_run (steps : List WindowStep) (windowMap : WindowMap)
    (h : DefaultIdZero windowMap) (hk : keepsDefaultAlong windowMap steps) :
    DefaultIdZero (runWindowSteps windowMap steps) := by
  induction steps generalizing windowMap with
  | nil => exact h
  | cons st rest ih =>
    exact ih (st.apply windowMap) (defaultIdZero_step windowMap st h hk.1) hk.2

/-- After `initialize`, along every run in which `update_window` never has to
create the default entry, the default entry, if present, has id 0. -/
theorem defaultIdZero_after_initialize (windowMap : WindowMap) (s : Option Nat) (w h : Int)
    (steps : List WindowStep)
    (hk : keepsDefaultAlong (LibGodot.initialize_registry windowMap s w h) steps) :
    DefaultIdZero (runWindowSteps (LibGodot.initialize_registry windowMap s w h) steps) := by
  apply defaultIdZero_run steps _ _ hk
  intro d hd
  rw [initialize_registry_default] at hd
  simp only [Option.some.injEq] at hd
  rw [← hd]
  rfl

/-- C14, the code at the failing input: after `initialize`, a `cleanup`
followed by `update_window("", 9, 100, 200)` leaves a default entry whose id
is -1, and the window-update task for the default name, which resolves the
window id 0, leaves it at -1. -/
theorem C14_default_id_after_cleanup :
    runWindowSteps (LibGodot.initialize_registry [] (some 5) 100 200)
        [WindowStep.cleanup,
         WindowStep.update_window (some ⟨true, fun _ => none⟩) "" (some 9) 100 200]
      = [("", WindowData.create (some 9) 100 200 (-1))] ∧
    getWindowId (runWindowSteps (LibGodot.initialize_registry [] (some 5) 100 200)
        [WindowStep.cleanup,
         WindowStep.update_window (some ⟨true, fun _ => none⟩) "" (some 9) 100 200]) "" = -1 ∧
    getWindowId (runWindowSteps (LibGodot.initialize_registry [] (some 5) 100 200)
        [WindowStep.cleanup,
         WindowStep.update_window (some ⟨true, fun _ => none⟩) "" (some 9) 100 200,
         WindowStep.task (createUpdateWindowFunc "" 100 200 (some 9) true)
           ⟨true, fun _ => none⟩]) "" = -1 := by
  decide

/-- C15, as stated, fails: the default entry holds surface 1, and
`update_window("", 2, 100, 200)` leaves it holding surface 2. -/
theorem C15_counterexample :
    mapFind WindowMap.sample "" = some (WindowData.create (some 1) 100 200 0) ∧
    mapFind (LibGodot.updateWindowNative WindowMap.sample none "" (some 2) 100
      200).windowMap "" = some (WindowData.create (some 2) 100 200 0) := by
  decide

/-- C15, amended: when the default entry holds a surface other than `s2`,
`update_window("", s2, w, h)` stores `s2` (with `w` and `h`, the id
unchanged) and flags the change: the surface-changed flag is true and the
warning "Default window surface should never change!" is logged. -/
theorem C15_default_surface_replaced_and_flagged (windowMap : WindowMap)
    (engine : Option Scene) (d : WindowData) (s2 : Option Nat) (w h : Int)
    (hd : mapFind windowMap "" = some d) (hs : s2 ≠ d.surface) :
    mapFind (LibGodot.updateWindowNative windowMap engine "" s2 w h).windowMap ""
      = some { width := w, height := h, id := d.id, surface := s2 } ∧
    (LibGodot.updateWindowNative windowMap engine "" s2 w h).changeSurface = true ∧
    (LibGodot.updateWindowNative windowMap engine "" s2 w h).warned = true := by
  refine ⟨?_, ?_, ?_⟩
  · rw [updateWindowNative_find_default, hd]
  · rw [updateWindowNative_changeSurface]
    exact Or.inr ⟨d, hd, Ne.symm hs⟩
  · rw [updateWindowNative_warned]
    unfold LibGodot.updateWindowEntry
    simp [mapContains, hd, Ne.symm hs]

/-- C15 (amended) on the sample registry with the new surface 7. -/
theorem C15_default_surface_replaced_and_flagged_witness :
    mapFind WindowMap.sample "" = some (WindowData.create (some 1) 100 200 0) ∧
    (some 7 : Option Nat) ≠ (WindowData.create (some 1) 100 200 0).surface ∧
    (mapFind (LibGodot.updateWindowNative WindowMap.sample (some Scene.sample) "" (some 7) 30
        40).windowMap ""
        = some { width := 30, height := 40, id := (WindowData.create (some 1) 100 200 0).id,
                 surface := some 7 } ∧
     (LibGodot.updateWindowNative WindowMap.sample (some Scene.sample) "" (some 7) 30
        40).changeSurface
        = true ∧
     (LibGodot.updateWindowNative WindowMap.sample (some Scene.sample) "" (some 7) 30
        40).warned = true) :=
  ⟨by decide, by decide,
   C15_default_surface_replaced_and_flagged WindowMap.sample (some Scene.sample)
     (WindowData.create (some 1) 100 200 0) (some 7) 30 40 (by decide) (by decide)⟩

/-- C17, as stated, fails: the task for the default name resolves the window
id 0 while the registry holds a default entry with id -1, and after the task
the entry still has id -1. -/
theorem C17_counterexample :
    (createUpdateWindowFunc "" 100 200 (some 9) true).resolve ⟨true, fun _ => none⟩
      = some (0, []) ∧
    mapFind [("", WindowData.create (some 9) 100 200 (-1))] ""
      = some (WindowData.create (some 9) 100 200 (-1)) ∧
    mapFind ((createUpdateWindowFunc "" 100 200 (some 9) true).run ⟨true, fun _ => none⟩
      [("", WindowData.create (some 9) 100 200 (-1))]).windowMap ""
      = some (WindowData.create (some 9) 100 200 (-1)) := by
  decide

/-- C17, amended: when the task resolves its window name to the id `w`, then
for `w > 0` an existing entry for that name gets the id `w`; the entries of
all other names are unchanged; for `w ≤ 0` the registry is unchanged (so for
`w = 0` the entry keeps the id it has); for `w ≥ 0` exactly one resize, for
window `w`, follows the calls of the resolution; and for `w < 0` no resize
is issued. -/
theorem C17_task_records_positive_id (t : WindowTask) (scene : Scene)
    (windowMap : WindowMap) (w : Int) (effects : List WindowEffect)
    (h : t.resolve scene = some (w, effects)) :
    (0 < w → ∀ d, mapFind windowMap t.p_window_name = some d →
      mapFind (t.run scene windowMap).windowMap t.p_window_name = some { d with id := w }) ∧
    (∀ other, other ≠ t.p_window_name →
      mapFind (t.run scene windowMap).windowMap other = mapFind windowMap other) ∧
    (w ≤ 0 → (t.run scene windowMap).windowMap = windowMap) ∧
    (0 ≤ w → (t.run scene windowMap).effects
      = effects ++ [WindowEffect.resize_window t.p_width t.p_height w]) ∧
    (w < 0 → (t.run scene windowMap).effects = effects) := by
  unfold WindowTask.run
  rw [h]
  dsimp only
  refine ⟨?_, ?_, ?_, ?_, ?_⟩
  · intro hw d hd
    have h0 : 0 ≤ w := by omega
    simp [h0, hw, mapContains, hd, mapFind_mapSet_same]
  · intro other hne
    by_cases h0 : 0 ≤ w
    · by_cases hw : 0 < w
      · cases hd : mapFind windowMap t.p_window_name with
        | none => simp [h0, hw, mapContains, hd]
        | some d => simp [h0, hw, mapContains, hd, mapFind_mapSet_other _ _ _ _ hne]
      · simp [h0, hw]
    · simp [h0]
  · intro hw
    by_cases h0 : 0 ≤ w
    · have : ¬ 0 < w := by omega
      simp [h0, this]
    · simp [h0]
  · intro h0
    simp [h0]
  · intro hw
    have : ¬ 0 ≤ w := by omega
    simp [this]

/-- C17 (amended) for the task of window "w" on `Scene.sample`, where the
window resolves to id 3: the entry for "w" gets id 3. -/
theorem C17_task_records_positive_id_witness :
    (createUpdateWindowFunc "w" 50 60 (some 2) true).resolve Scene.sample
      = some (3, [WindowEffect.set_visible "w" true,
                  WindowEffect.set_native_surface "w" (some 2) 50 60]) ∧
    mapFind ((createUpdateWindowFunc "w" 50 60 (some 2) true).run Scene.sample
      WindowMap.sample).windowMap "w" = some (WindowData.create (some 2) 50 60 3) ∧
    ((createUpdateWindowFunc "w" 50 60 (some 2) true).run Scene.sample WindowMap.sample).effects
      = [WindowEffect.set_visible "w" true,
         WindowEffect.set_native_surface "w" (some 2) 50 60,
         WindowEffect.resize_window 50 60 3] :=
  ⟨by decide,
   (C17_task_records_positive_id (createUpdateWindowFunc "w" 50 60 (some 2) true)
      Scene.sample WindowMap.sample 3
      [WindowEffect.set_visible "w" true, WindowEffect.set_native_surface "w" (some 2) 50 60]
      (by decide)).1 (by decide) (WindowData.create (some 2) 50 60 2) (by decide),
   (C17_task_records_positive_id (createUpdateWindowFunc "w" 50 60 (some 2) true)
      Scene.sample WindowMap.sample 3
      [WindowEffect.set_visible "w" true, WindowEffect.set_native_surface "w" (some 2) 50 60]
      (by decide)).2.2.2.1 (by decide)⟩

/-- C18: `remove_window("")` is rejected: the registry is unchanged and no
task is submitted. -/
theorem C18_remove_default_rejected (windowMap : WindowMap) (started : Bool) :
    LibGodot.removeWindowNative windowMap started ""
      = { windowMap := windowMap, submitted := none } := by
  simp [LibGodot.removeWindowNative]

/-! ## Touch events (C19, C20) -/

theorem getElem_append_cons_length {α : Type} (pre : List α) (t : α) (ts : List α) :
    (pre ++ t :: ts)[pre.length]? = some t := by
  induction pre with
  | nil => simp
  | cons a as ih => simpa using ih

theorem set_append_cons_length {α : Type} (pre : List α) (t u : α) (ts : List α) :
    (pre ++ t :: ts).set pre.length u = pre ++ u :: ts := by
  induction pre with
  | nil => rfl
  | cons a as ih => simp [ih]

/-- The inner loop of MOVE finds the first point with the given id. -/
theorem findPointIndex_spec {F : Type} (id : Int) (ps pre : List (TouchPos F)) :
    match findPointIndex id ps pre.length with
    | none => firstPointOf ps id = none
    | some idx => ∃ pt, (pre ++ ps)[idx]? = some pt ∧ firstPointOf ps id = some pt := by
  induction ps generalizing pre with
  | nil => simp [findPointIndex, firstPointOf]
  | cons p rest ih =>
    unfold findPointIndex
    by_cases h : id = p.id
    · rw [if_pos h]
      exact ⟨p, getElem_append_cons_length pre p rest, by simp [firstPointOf, h]⟩
    · rw [if_neg h]
      have := ih (pre ++ [p])
      simp only [List.length_append, List.length_singleton, List.append_assoc,
        List.singleton_append] at this
      cases hf : findPointIndex id rest (pre.length + 1) with
      | none =>
        rw [hf] at this
        simpa [firstPointOf, h] using this
      | some idx =>
        rw [hf] at this
        obtain ⟨pt, h1, h2⟩ := this
        exact ⟨pt, h1, by simpa [firstPointOf, h] using h2⟩

/-- The outer loop of MOVE, started at index `pre.length` with the touches
`rest` still to visit, updates each of them as `touchAfterMove` says and
emits the events `dragEventFor` says, in order. -/
theorem moveLoop_spec {F : Type} (ops : FloatOps F) (windowId : Int)
    (points : List (TouchPos F)) (rest pre : List (TouchPos F)) (events : List (InputEvent F)) :
    moveLoop ops windowId points rest.length pre.length (pre ++ rest) events
      = (pre ++ rest.map (touchAfterMove ops points),
         events ++ rest.filterMap (dragEventFor ops windowId points)) := by
  induction rest generalizing pre events with
  | nil => simp [moveLoop]
  | cons t ts ih =>
    have hget : (pre ++ t :: ts)[pre.length]? = some t := getElem_append_cons_length pre t ts
    have hnext : ∀ (u : TouchPos F) (ev : List (InputEvent F)),
        moveLoop ops windowId points ts.length (pre.length + 1) (pre ++ u :: ts) ev
          = (pre ++ u :: ts.map (touchAfterMove ops points),
             ev ++ ts.filterMap (dragEventFor ops windowId points)) := by
      intro u ev
      have := ih (pre ++ [u]) ev
      simpa [List.append_assoc] using this
    simp only [List.length_cons, moveLoop, hget]
    have hspec := findPointIndex_spec t.id points []
    simp only [List.length_nil, List.nil_append] at hspec
    cases hf : findPointIndex t.id points 0 with
    | none =>
      rw [hf] at hspec
      simp only
      rw [hnext]
      simp [touchAfterMove, dragEventFor, hspec]
    | some idx =>
      rw [hf] at hspec
      obtain ⟨pt, h1, h2⟩ := hspec
      simp only [h1]
      by_cases heq : Vector2.equals ops t.pos pt.pos = true
      · rw [if_pos heq, hnext]
        simp [touchAfterMove, dragEventFor, h2, heq]
      · rw [if_neg heq]
        have hset : (pre ++ t :: ts).set pre.length { t with pos := pt.pos }
            = pre ++ { t with pos := pt.pos } :: ts :=
          set_append_cons_length pre t _ ts
        rw [hset, hnext]
        simp [touchAfterMove, dragEventFor, h2, heq]

/-- C19: with a started instance and a window registered with id `k ≥ 0`,
DOWN with the point `(i, p)`, then MOVE with `(i, q)` where `q` differs from
`p`, then UP emit exactly three events, in this order: a pressed touch event
(index `i`, position `p`), a drag event (index `i`, position `q`, relative
`q - p`), and a released, non-cancelled touch event (index `i`, position
`q`), each for window `k`.  The touch table before the DOWN may be any. -/
theorem C19_down_move_up {F : Type} (ops : FloatOps F) (windowMap : WindowMap)
    (touches : TouchTable F) (name : String) (k i : Int) (p q : Vector2 F)
    (pressure1 pressure2 : F) (tilt1 tilt2 : Vector2 F) (tap1 tap2 tap3 : Bool)
    (ptr1 ptr2 ptr3 : Int) (points3 : List (TouchPos F))
    (hk : getWindowId windowMap name = k) (hk0 : 0 ≤ k)
    (hpq : Vector2.equals ops p q = false) :
    dispatchAll ops true windowMap name touches
      [ { p_event := AMOTION_EVENT_ACTION_DOWN, p_pointer := ptr1,
          points := [{ id := i, pos := p, pressure := pressure1, tilt := tilt1 }],
          p_double_tap := tap1 },
        { p_event := AMOTION_EVENT_ACTION_MOVE, p_pointer := ptr2,
          points := [{ id := i, pos := q, pressure := pressure2, tilt := tilt2 }],
          p_double_tap := tap2 },
        { p_event := AMOTION_EVENT_ACTION_UP, p_pointer := ptr3, points := points3,
          p_double_tap := tap3 } ]
      = [ InputEvent.screenTouch k i true false p tap1,
          InputEvent.screenDrag k i q (Vector2.minus ops q p) pressure2 tilt2,
          InputEvent.screenTouch k i false false q tap3 ] := by
  have hnot : ¬ k < 0 := by omega
  have h1 : AMOTION_EVENT_ACTION_MOVE ≠ AMOTION_EVENT_ACTION_DOWN := by decide
  have h2 : AMOTION_EVENT_ACTION_UP ≠ AMOTION_EVENT_ACTION_DOWN := by decide
  have h3 : AMOTION_EVENT_ACTION_UP ≠ AMOTION_EVENT_ACTION_MOVE := by decide
  have h4 : AMOTION_EVENT_ACTION_UP ≠ AMOTION_EVENT_ACTION_CANCEL := by decide
  simp [dispatchAll, dispatchTouchEvent, hk, hnot, h1, h2, h3, h4, TouchTable.set, moveLoop,
    findPointIndex, hpq]

/-- C19 at the window "w" with id 2, point id 1, `p = (5,5)` and `q = (6,5)`,
starting from the empty touch table: the relative motion is `(1,0)`. -/
theorem C19_down_move_up_witness :
    getWindowId WindowMap.sample "w" = 2 ∧ (0 : Int) ≤ 2 ∧
    Vector2.equals FloatOps.exact ⟨5, 5⟩ ⟨6, 5⟩ = false ∧
    dispatchAll FloatOps.exact true WindowMap.sample "w" (fun _ => [])
      [ { p_event := AMOTION_EVENT_ACTION_DOWN, p_pointer := 0,
          points := [{ id := 1, pos := ⟨5, 5⟩, pressure := 0, tilt := ⟨0, 0⟩ }],
          p_double_tap := false },
        { p_event := AMOTION_EVENT_ACTION_MOVE, p_pointer := 0,
          points := [{ id := 1, pos := ⟨6, 5⟩, pressure := 0, tilt := ⟨0, 0⟩ }],
          p_double_tap := false },
        { p_event := AMOTION_EVENT_ACTION_UP, p_pointer := 0, points := [],
          p_double_tap := false } ]
      = [ InputEvent.screenTouch 2 1 true false ⟨5, 5⟩ false,
          InputEvent.screenDrag 2 1 ⟨6, 5⟩ ⟨1, 0⟩ 0 ⟨0, 0⟩,
          InputEvent.screenTouch 2 1 false false ⟨6, 5⟩ false ] :=
  ⟨by decide, by decide, by decide,
   C19_down_move_up FloatOps.exact WindowMap.sample (fun _ => []) "w" 2 1 ⟨5, 5⟩ ⟨6, 5⟩ 0 0
     ⟨0, 0⟩ ⟨0, 0⟩ false false false 0 0 0 [] (by decide) (by decide) (by decide)⟩

/-- C20: for a MOVE on a window with id `k ≥ 0` tracking the touches `T`
with the points `P`: when the two lengths differ, no event is emitted and
`T` is unchanged; when they agree, the events are the drag events owed to
the touches of `T`, in the order of `T` (`dragEventFor`: the first point
with the id of the touch has another position; the event carries the new
position and the difference to the stored one), and each touch is updated
as `touchAfterMove` says; in both cases the ids of `T`, in order, and the
touches of other windows are unchanged. -/
theorem C20_move {F : Type} (ops : FloatOps F) (windowMap : WindowMap)
    (touches : TouchTable F) (name : String) (p_pointer : Int) (points : List (TouchPos F))
    (p_double_tap : Bool) (k : Int) (hk : getWindowId windowMap name = k) (hk0 : 0 ≤ k) :
    ((touches k).length ≠ points.length →
      (dispatchTouchEvent ops true windowMap touches name AMOTION_EVENT_ACTION_MOVE p_pointer
        points p_double_tap).events = [] ∧
      (dispatchTouchEvent ops true windowMap touches name AMOTION_EVENT_ACTION_MOVE p_pointer
        points p_double_tap).touches k = touches k) ∧
    ((touches k).length = points.length →
      (dispatchTouchEvent ops true windowMap touches name AMOTION_EVENT_ACTION_MOVE p_pointer
        points p_double_tap).events = (touches k).filterMap (dragEventFor ops k points) ∧
      (dispatchTouchEvent ops true windowMap touches name AMOTION_EVENT_ACTION_MOVE p_pointer
        points p_double_tap).touches k = (touches k).map (touchAfterMove ops points)) ∧
    ((dispatchTouchEvent ops true windowMap touches name AMOTION_EVENT_ACTION_MOVE p_pointer
        points p_double_tap).touches k).map (fun t => t.id)
      = (touches k).map (fun t => t.id) ∧
    (∀ other, other ≠ k →
      (dispatchTouchEvent ops true windowMap touches name AMOTION_EVENT_ACTION_MOVE p_pointer
        points p_double_tap).touches other = touches other) := by
  have hloop := moveLoop_spec ops k points (touches k) [] []
  simp only [List.length_nil, List.nil_append] at hloop
  have hnot : ¬ k < 0 := by omega
  have hid : ∀ t : TouchPos F, (touchAfterMove ops points t).id = t.id := by
    intro t
    unfold touchAfterMove
    cases firstPointOf points t.id with
    | none => rfl
    | some pt => by_cases he : Vector2.equals ops t.pos pt.pos = true <;> simp [he]
  have hne : AMOTION_EVENT_ACTION_MOVE ≠ AMOTION_EVENT_ACTION_DOWN := by decide
  unfold dispatchTouchEvent
  simp only [hk, hnot, hne, if_false, Bool.not_true, Bool.false_eq_true]
  refine ⟨?_, ?_, ?_, ?_⟩
  · intro hlen
    simp [hlen]
  · intro hlen
    rw [hlen] at hloop
    simp [hlen, hloop, TouchTable.set]
  · by_cases hlen : (touches k).length = points.length
    · rw [hlen] at hloop
      simp [hlen, hloop, TouchTable.set, hid]
    · simp [hlen]
  · intro other hother
    by_cases hlen : (touches k).length = points.length
    · simp [hlen, TouchTable.set, hother]
    · simp [hlen]

/-- C20 on the sample table: window "w" (id 2) tracks touch 1 at (5,5) and
touch 2 at (8,8); the MOVE reports touch 2 at (8,8) and touch 1 at (6,5): one
drag event, for touch 1, to (6,5) with relative (1,0); touch 1 then stores
(6,5) and touch 2 is unchanged. -/
theorem C20_move_witness :
    getWindowId WindowMap.sample "w" = 2 ∧ (0 : Int) ≤ 2 ∧
    (TouchTable.sample 2).length = movePointsSample.length ∧
    (dispatchTouchEvent FloatOps.exact true WindowMap.sample TouchTable.sample "w"
        AMOTION_EVENT_ACTION_MOVE 0 movePointsSample false).events
      = (TouchTable.sample 2).filterMap (dragEventFor FloatOps.exact 2 movePointsSample) ∧
    (TouchTable.sample 2).filterMap (dragEventFor FloatOps.exact 2 movePointsSample)
      = [InputEvent.screenDrag 2 1 ⟨6, 5⟩ ⟨1, 0⟩ 1 ⟨0, 0⟩] ∧
    (dispatchTouchEvent FloatOps.exact true WindowMap.sample TouchTable.sample "w"
        AMOTION_EVENT_ACTION_MOVE 0 movePointsSample false).touches 2
      = [ { id := 1, pos := ⟨6, 5⟩, pressure := 0, tilt := ⟨0, 0⟩ },
          { id := 2, pos := ⟨8, 8⟩, pressure := 0, tilt := ⟨0, 0⟩ } ] :=
  ⟨by decide, by decide, by decide,
   ((C20_move FloatOps.exact WindowMap.sample TouchTable.sample "w" 0 movePointsSample false 2
      (by decide) (by decide)).2.1 (by decide)).1,
   by decide,
   ((C20_move FloatOps.exact WindowMap.sample TouchTable.sample "w" 0 movePointsSample false 2
      (by decide) (by decide)).2.1 (by decide)).2.trans (by decide)⟩

/-! ## C21: UP, CANCEL and POINTER_UP -/

/-- The POINTER_UP loop on a list whose first touch with id `p` is `t`: `t` is
removed, the touches before and after it stay in order, and one released
event for `t` is emitted. -/
theorem removeFirstWithId_split {F : Type} (k p : Int) (pre : List (TouchPos F))
    (t : TouchPos F) (post : List (TouchPos F)) (ht : t.id = p)
    (hpre : ∀ x ∈ pre, x.id ≠ p) :
    removeFirstWithId k p (pre ++ t :: post)
      = (pre ++ post, [InputEvent.screenTouch k t.id false false t.pos false]) := by
  induction pre with
  | nil => simp [removeFirstWithId, ht]
  | cons x xs ih =>
    have hx : x.id ≠ p := hpre x (List.mem_cons_self _ _)
    have hxs : ∀ y ∈ xs, y.id ≠ p := fun y hy => hpre y (List.mem_cons_of_mem _ hy)
    simp [removeFirstWithId, hx, ih hxs]

/-- The POINTER_UP loop on a list without a touch of id `p` changes nothing
and emits nothing. -/
theorem removeFirstWithId_absent {F : Type} (k p : Int) (touch : List (TouchPos F))
    (h : ∀ x ∈ touch, x.id ≠ p) :
    removeFirstWithId k p touch = (touch, []) := by
  induction touch with
  | nil => rfl
  | cons x xs ih =>
    have hx : x.id ≠ p := h x (List.mem_cons_self _ _)
    have hxs : ∀ y ∈ xs, y.id ≠ p := fun y hy => h y (List.mem_cons_of_mem _ hy)
    simp [removeFirstWithId, hx, ih hxs]


/-- C21: for a started instance and a window with id `k ≥ 0` tracking the
touches `T`: UP and CANCEL leave the touch table unchanged and emit one
event per touch of `T`, in order, at the stored position, not pressed
(cancelled for CANCEL, not cancelled for UP); POINTER_UP with pointer id `p`
removes the first touch of `T` with id `p`, keeps the others in order, and
emits one released event at its stored position; when no touch of `T` has
id `p`, POINTER_UP leaves `T` unchanged and emits nothing; POINTER_UP leaves
the touches of other windows unchanged. -/
theorem C21_up_cancel_pointer_up {F : Type} (ops : FloatOps F) (windowMap : WindowMap)
    (touches : TouchTable F) (name : String) (p : Int) (points : List (TouchPos F))
    (p_double_tap : Bool) (k : Int) (hk : getWindowId windowMap name = k) (hk0 : 0 ≤ k) :
    ((dispatchTouchEvent ops true windowMap touches name AMOTION_EVENT_ACTION_UP p points
        p_double_tap).touches = touches ∧
     (dispatchTouchEvent ops true windowMap touches name AMOTION_EVENT_ACTION_UP p points
        p_double_tap).events
       = (touches k).map (fun t => InputEvent.screenTouch k t.id false false t.pos p_double_tap)) ∧
    ((dispatchTouchEvent ops true windowMap touches name AMOTION_EVENT_ACTION_CANCEL p points
        p_double_tap).touches = touches ∧
     (dispatchTouchEvent ops true windowMap touches name AMOTION_EVENT_ACTION_CANCEL p points
        p_double_tap).events
       = (touches k).map (fun t => InputEvent.screenTouch k t.id false true t.pos p_double_tap)) ∧
    (∀ (pre : List (TouchPos F)) (t : TouchPos F) (post : List (TouchPos F)),
      touches k = pre ++ t :: post → t.id = p → (∀ x ∈ pre, x.id ≠ p) →
      (dispatchTouchEvent ops true windowMap touches name AMOTION_EVENT_ACTION_POINTER_UP p
        points p_double_tap).touches k = pre ++ post ∧
      (dispatchTouchEvent ops true windowMap touches name AMOTION_EVENT_ACTION_POINTER_UP p
        points p_double_tap).events = [InputEvent.screenTouch k t.id false false t.pos false]) ∧
    ((∀ x ∈ touches k, x.id ≠ p) →
      (dispatchTouchEvent ops true windowMap touches name AMOTION_EVENT_ACTION_POINTER_UP p
        points p_double_tap).touches k = touches k ∧
      (dispatchTouchEvent ops true windowMap touches name AMOTION_EVENT_ACTION_POINTER_UP p
        points p_double_tap).events = []) ∧
    (∀ j : Int, j ≠ k →
      (dispatchTouchEvent ops true windowMap touches name AMOTION_EVENT_ACTION_POINTER_UP p
        points p_double_tap).touches j = touches j) := by
  have hnot : ¬ k < 0 := by omega
  have e1 : AMOTION_EVENT_ACTION_UP ≠ AMOTION_EVENT_ACTION_DOWN := by decide
  have e2 : AMOTION_EVENT_ACTION_UP ≠ AMOTION_EVENT_ACTION_MOVE := by decide
  have e3 : AMOTION_EVENT_ACTION_UP ≠ AMOTION_EVENT_ACTION_CANCEL := by decide
  have e4 : AMOTION_EVENT_ACTION_CANCEL ≠ AMOTION_EVENT_ACTION_DOWN := by decide
  have e5 : AMOTION_EVENT_ACTION_CANCEL ≠ AMOTION_EVENT_ACTION_MOVE := by decide
  have e6 : AMOTION_EVENT_ACTION_POINTER_UP ≠ AMOTION_EVENT_ACTION_DOWN := by decide
  have e7 : AMOTION_EVENT_ACTION_POINTER_UP ≠ AMOTION_EVENT_ACTION_MOVE := by decide
  have e8 : AMOTION_EVENT_ACTION_POINTER_UP ≠ AMOTION_EVENT_ACTION_CANCEL := by decide
  have e9 : AMOTION_EVENT_ACTION_POINTER_UP ≠ AMOTION_EVENT_ACTION_UP := by decide
  have e10 : AMOTION_EVENT_ACTION_POINTER_UP ≠ AMOTION_EVENT_ACTION_POINTER_DOWN := by decide
  refine ⟨?_, ?_, ?_, ?_, ?_⟩
  · simp [dispatchTouchEvent, hk, hnot, e1, e2, e3]
  · simp [dispatchTouchEvent, hk, hnot, e4, e5]
  · intro pre t post hT ht hpre
    simp [dispatchTouchEvent, hk, hnot, e6, e7, e8, e9, e10, TouchTable.set, hT,
      removeFirstWithId_split k p pre t post ht hpre]
  · intro h
    simp [dispatchTouchEvent, hk, hnot, e6, e7, e8, e9, e10, TouchTable.set,
      removeFirstWithId_absent k p _ h]
  · intro j hj
    simp [dispatchTouchEvent, hk, hnot, e6, e7, e8, e9, e10, TouchTable.set, hj]

/-- C21 at the window "w" (id 2) tracking the touches 1 at (5,5) and 2 at
(8,8): POINTER_UP for pointer 1 leaves touch 2 and reports touch 1 released
at (5,5); UP reports both touches and keeps the table. -/
theorem C21_up_cancel_pointer_up_witness :
    getWindowId WindowMap.sample "w" = 2 ∧ (0 : Int) ≤ 2 ∧
    (dispatchTouchEvent FloatOps.exact true WindowMap.sample TouchTable.sample "w"
      AMOTION_EVENT_ACTION_POINTER_UP 1 [] false).touches 2
      = [] ++ [{ id := 2, pos := ⟨8, 8⟩, pressure := 0, tilt := ⟨0, 0⟩ }] ∧
    (dispatchTouchEvent FloatOps.exact true WindowMap.sample TouchTable.sample "w"
      AMOTION_EVENT_ACTION_POINTER_UP 1 [] false).events
      = [InputEvent.screenTouch 2 1 false false ⟨5, 5⟩ false] :=
  ⟨by decide, by decide,
   (C21_up_cancel_pointer_up FloatOps.exact WindowMap.sample TouchTable.sample "w" 1 [] false 2
     (by decide) (by decide)).2.2.1 []
     { id := 1, pos := ⟨5, 5⟩, pressure := 0, tilt := ⟨0, 0⟩ }
     [{ id := 2, pos := ⟨8, 8⟩, pressure := 0, tilt := ⟨0, 0⟩ }] rfl rfl
     (fun _ hx => absurd hx (List.not_mem_nil _))⟩

/-! ## C22: the frame callback and the two pause flags -/

/-- C22, as the code behaves: a firing of `frameCallback64` registers the
callback again exactly when an instance exists and `paused` is clear; the
flag `in_background` is not consulted.  At the failing input, a started
instance with `in_background` set and `paused` clear, the firing runs one
iteration and registers the callback again. -/
theorem C22_frameCallback_ignores_background (s : FrameDriver) :
    ((frameCallback64 s).pending = s.pending + 1 ↔
      (s.module._instance ≠ none ∧ s.module._data.paused = false)) ∧
    ((frameCallback64 s).pending = s.pending ↔
      ¬ (s.module._instance ≠ none ∧ s.module._data.paused = false)) ∧
    FrameDriver.backgrounded.module._data.in_background = true ∧
    FrameDriver.backgrounded.module._data.paused = false ∧
    (frameCallback64 FrameDriver.backgrounded).pending
      = FrameDriver.backgrounded.pending + 1 ∧
    (frameCallback64 FrameDriver.backgrounded).log
      = [FrameEffect.iteration, FrameEffect.postFrameCallback64] := by
  refine ⟨?_, ?_, by decide, by decide, by decide, by decide⟩
  · unfold frameCallback64 GodotModule.is_paused
    cases hp : s.module._data.paused <;> cases hi : s.module._instance <;>
      simp [FrameDriver.postFrameCallback64]
    split <;> simp
  · unfold frameCallback64 GodotModule.is_paused
    cases hp : s.module._data.paused <;> cases hi : s.module._instance <;>
      simp [FrameDriver.postFrameCallback64]
    split <;> simp

/-! ## C23: text of a method call error -/

/-- Two strings that differ at one position are different. -/
theorem string_ne_of_get {a b : String} (n : Nat)
    (h : a.data.get? n ≠ b.data.get? n) : a ≠ b := by
  intro hab
  subst hab
  exact h rfl

/-- The descriptions of two different named codes differ, whatever the
counts they carry. -/
theorem callErrorDescription_ne (e1 e2 : GDExtensionCallError)
    (h1 : e1.error.isNamed = true) (h2 : e2.error.isNamed = true)
    (hne : e1.error ≠ e2.error) :
    callErrorDescription e1 ≠ callErrorDescription e2 := by
  obtain ⟨c1, a1, x1⟩ := e1
  obtain ⟨c2, a2, x2⟩ := e2
  cases c1 <;> cases c2 <;>
    simp [GDExtensionCallErrorType.isNamed] at h1 h2 hne <;>
    simp only [callErrorDescription] <;>
    first
      | (apply string_ne_of_get 0; simp [String.data_append]; done)
      | (apply string_ne_of_get 2; simp [String.data_append]; done)
      | (apply string_ne_of_get 4; simp [String.data_append]; done)
      | (apply string_ne_of_get 8; simp [String.data_append])

/-- C23: for every method name `m` and every call error `e` whose code is not
OK, `create_method_call_error_string(m, e)` is the prefix
"Method call error name: ", then `m`, a space, and the one description of
the code of `e` (with `e.expected` and `e.argument` in decimal for the two
count errors, "Unknown Error" for a code that is not named); and the
descriptions of two different named codes are different. -/
theorem C23_call_error_text (m : String) (e : GDExtensionCallError)
    (h : e.error ≠ .CALL_OK) :
    create_method_call_error_string m e
      = "Method call error name: " ++ m ++ " " ++ callErrorDescription e ∧
    (∀ e2 : GDExtensionCallError, e.error.isNamed = true → e2.error.isNamed = true →
      e.error ≠ e2.error → callErrorDescription e ≠ callErrorDescription e2) := by
  refine ⟨?_, fun e2 h1 h2 hne => callErrorDescription_ne e e2 h1 h2 hne⟩
  obtain ⟨c, a, x⟩ := e
  cases c <;>
    simp [create_method_call_error_string, callErrorDescription, to_string] at h ⊢

/-- C23 at the method name "free" and the error "too few arguments" with
two expected and one given. -/
theorem C23_call_error_text_witness :
    create_method_call_error_string "free" ⟨.CALL_ERROR_TOO_FEW_ARGUMENTS, 1, 2⟩
      = "Method call error name: free Too few arguments (Expected: 2, Actual: 1)" ∧
    callErrorDescription ⟨.CALL_ERROR_TOO_FEW_ARGUMENTS, 1, 2⟩
      ≠ callErrorDescription ⟨.CALL_ERROR_TOO_MANY_ARGUMENTS, 1, 2⟩ :=
  ⟨(C23_call_error_text "free" ⟨.CALL_ERROR_TOO_FEW_ARGUMENTS, 1, 2⟩ (by decide)).1.trans
      (by decide),
   (C23_call_error_text "free" ⟨.CALL_ERROR_TOO_FEW_ARGUMENTS, 1, 2⟩ (by decide)).2
      ⟨.CALL_ERROR_TOO_MANY_ARGUMENTS, 1, 2⟩ rfl rfl (by decide)⟩

/-! ## C24: arguments of `createInstance` -/

/-- Converting every element to the same text gives that text once per
element. -/
theorem mapM_const_ok {α β : Type} (s : β) (l : List α) :
    l.mapM (fun _ => (Except.ok s : Except String β))
      = .ok (List.replicate l.length s) := by
  induction l with
  | nil => rfl
  | cons a l ih =>
    rw [List.mapM_cons, ih]
    rfl

/-- C24, as the code behaves: called with two or more arguments, of which the
first converts to the text `s`, `createInstanceFunc` hands
`get_or_create_instance` the text `s` once per argument, not the texts of
the arguments in order. -/
theorem C24_createInstance_repeats_first_argument
    (workletContext : JsiWorkletContext) (rt : Nat)
    (toStr : JsiValue → Except String String) (arrayElements : Nat → List JsiValue)
    (mod : GodotModule) (env : Platform) (a1 a2 : JsiValue) (rest : List JsiValue)
    (s : String) (h : toStr a1 = .ok s) :
    createInstanceArgs toStr arrayElements (a1 :: a2 :: rest)
      = .ok (some (List.replicate (rest.length + 2) s)) ∧
    (createInstanceFunc workletContext rt toStr arrayElements mod env
        (a1 :: a2 :: rest)).effects
      = (mod.get_or_create_instance env (List.replicate (rest.length + 2) s)).effects := by
  have hargs : createInstanceArgs toStr arrayElements (a1 :: a2 :: rest)
      = .ok (some (List.replicate (rest.length + 2) s)) := by
    simp only [createInstanceArgs, h]
    rw [mapM_const_ok]
    simp [Except.map]
  refine ⟨hargs, ?_⟩
  unfold createInstanceFunc
  rw [hargs]
  dsimp only
  split <;> rfl

/-- C24 at the call `createInstance("--scene", "foo")`: the engine is created
with the command line `["apk", "--scene", "--scene"]`. -/
theorem C24_createInstance_repeats_first_argument_witness :
    createInstanceArgs sampleToStr (fun _ => []) [jsString "--scene", jsString "foo"]
      = .ok (some ["--scene", "--scene"]) ∧
    createCalls (createInstanceFunc JsiWorkletContext.sample 0 sampleToStr (fun _ => [])
        GodotModule.singleton Platform.working
        [jsString "--scene", jsString "foo"]).effects
      = [(3, ["apk", "--scene", "--scene"])] :=
  ⟨(C24_createInstance_repeats_first_argument JsiWorkletContext.sample 0 sampleToStr
      (fun _ => []) GodotModule.singleton Platform.working (jsString "--scene")
      (jsString "foo") [] "--scene" rfl).1,
   by decide⟩

/-! ## C25: handles and callbacks of the registry -/

/-- C25, the code at the failing input: the empty registry is consistent;
after `register("w", 1, 100, 11)`, `register("w", 2, 200, 22)` and
`unregister(1)`, handle 2 is still associated with "w" while "w" has no
callback, so the registry is not consistent. -/
theorem C25_handle_without_callback :
    GodotModule.singleton.handlesHaveCallbacks = true ∧
    mapFind (runRegistry [.register "w" 1 100 11, .register "w" 2 200 22,
      .unregister 1]).1._data.handleToWindowName 2 = some "w" ∧
    mapContains (runRegistry [.register "w" 1 100 11, .register "w" 2 200 22,
      .unregister 1]).1._data.windowUpdateCallbacks "w" = false ∧
    (runRegistry [.register "w" 1 100 11, .register "w" 2 200 22,
      .unregister 1]).1.handlesHaveCallbacks = false := by
  decide

/-! ## C26: pending frame callbacks -/

/-- C26, the code at the failing input: after a successful creation one frame
callback is pending; `pause()` and `resume()` before it fires queue a second
registration, and once the dispatcher has run it two callbacks are pending;
when both have fired, two iterations have run and two callbacks are pending
again.  The same happens through `focus_out()` and `focus_in()`, also when
the pending callback fires in between. -/
theorem C26_two_pending_callbacks :
    (FrameDriver.start.run [.create Platform.working []]).pending = 1 ∧
    (FrameDriver.start.run [.create Platform.working [], .pause, .resume,
      .runTask]).pending = 2 ∧
    (FrameDriver.start.run [.create Platform.working [], .pause, .resume, .runTask,
      .fire, .fire]).pending = 2 ∧
    (FrameDriver.start.run [.create Platform.working [], .pause, .resume, .runTask,
      .fire, .fire]).log
      = [.postFrameCallback64, .postFrameCallback64, .iteration, .postFrameCallback64,
         .iteration, .postFrameCallback64] ∧
    (FrameDriver.start.run [.create Platform.working [], .focus_out, .runTask, .fire,
      .focus_in, .runTask, .runTask]).pending = 2 := by
  decide

/-! ## C27: cached entry points and the library handle -/

/-- C27, the code at the failing input (dynamically loading build): after
create and destroy the library 7 is closed and no library is loaded, yet the
creation entry point 9 and the destroy entry point 8 stay cached; the next
create opens no library and calls entry point 9, and the next destroy calls
entry point 8 and then closes the null handle. -/
theorem C27_entry_point_outlives_library :
    loadedHandles (LifeRun.start.run [.create Platform.working ["a"]]).effects = [7] ∧
    loadedHandles (LifeRun.start.run [.create Platform.working ["a"],
      .destroy DestroyPlatform.sample]).effects = [] ∧
    (LifeRun.start.run [.create Platform.working ["a"],
      .destroy DestroyPlatform.sample]).module._data.func_libgodot_create_godot_instance_android
      = some 9 ∧
    (LifeRun.start.run [.create Platform.working ["a"],
      .destroy DestroyPlatform.sample]).module._data.func_libgodot_destroy_godot_instance
      = some 8 ∧
    ((LifeRun.start.run [.create Platform.working ["a"],
      .destroy DestroyPlatform.sample]).module.get_or_create_instance Platform.working
        ["a"]).effects
      = [Effect.create_godot_instance 9 2 ["apk", "a"],
         Effect.set_native_surface (some 4),
         Effect.instance_start 5 true,
         Effect.postFrameCallback64,
         Effect.updateWindows true] ∧
    (((LifeRun.start.run [.create Platform.working ["a"],
      .destroy DestroyPlatform.sample]).module.get_or_create_instance Platform.working
        ["a"]).module.destroy_instance DestroyPlatform.sample).effects
      = [Effect.set_native_surface none,
         Effect.ANativeWindow_release (some 3),
         Effect.destroy_godot_instance 8 5,
         Effect.binding_deinit,
         Effect.dlclose_null] ∧
    loadedHandles (LifeRun.start.run [.create Platform.working ["a"],
      .destroy DestroyPlatform.sample, .create Platform.working ["a"]]).effects = [] ∧
    calledEntryPoints (LifeRun.start.run [.create Platform.working ["a"],
      .destroy DestroyPlatform.sample, .create Platform.working ["a"],
      .destroy DestroyPlatform.sample]).effects = [9, 8, 9, 8] := by
  decide

/-! ## C28: symmetry of the comparison -/

/-- C28, the code at the failing input: for two distinct wrappers of the host
function 5 on the JS lane, `a` with the live context 1 and `b` with the
expired context 2, comparing `a` with `b` answers true and comparing `b`
with `a` answers false. -/
theorem C28_compare_equal_asymmetric :
    JavascriptCallable.compare_equal (fun id => decide (id = 1))
      (some ⟨100, CallableCustom.javascript
        ⟨JsiWorkletContext.sample, false, FuncValue.function 5⟩⟩)
      (some ⟨200, CallableCustom.javascript
        ⟨JsiWorkletContext.second, false, FuncValue.function 5⟩⟩) = true ∧
    JavascriptCallable.compare_equal (fun id => decide (id = 1))
      (some ⟨200, CallableCustom.javascript
        ⟨JsiWorkletContext.second, false, FuncValue.function 5⟩⟩)
      (some ⟨100, CallableCustom.javascript
        ⟨JsiWorkletContext.sample, false, FuncValue.function 5⟩⟩) = false := by
  decide

/-! ## C29: appPause followed by appResume -/

/-- C29, as the code behaves: `appPause()` followed by `appResume()`, both
called from a thread other than the dispatcher thread, return, leave
`in_background` set and `paused` as it was, queue the two engine closures
and nothing else (no registration of the frame callback), and register no
callback.  At the fresh driver, whose two flags are clear, `in_background`
is set afterwards and the queue holds the two engine closures only. -/
theorem C29_appResume_keeps_background (s : FrameDriver) :
    ((s.appPause Caller.other).2.appResume Caller.other).1 = Outcome.returned ∧
    ((s.appPause Caller.other).2.appResume Caller.other).2.module._data.in_background
      = true ∧
    ((s.appPause Caller.other).2.appResume Caller.other).2.module._data.paused
      = s.module._data.paused ∧
    ((s.appPause Caller.other).2.appResume Caller.other).2.thread.tasks
      = s.thread.tasks ++ [EngineTask.pause, EngineTask.resume] ∧
    ((s.appPause Caller.other).2.appResume Caller.other).2.pending = s.pending ∧
    FrameDriver.start.module._data.in_background = false ∧
    FrameDriver.start.module._data.paused = false ∧
    (FrameDriver.start.run [.appPause, .appResume]).module._data.in_background = true ∧
    (FrameDriver.start.run [.appPause, .appResume]).thread.tasks
      = [EngineTask.pause, EngineTask.resume] := by
  refine ⟨?_, ?_, ?_, ?_, ?_, by decide, by decide, by decide, by decide⟩ <;>
    simp [FrameDriver.appPause, FrameDriver.appResume, FrameDriver.enqueueThenUpdate,
      FrameDriver.enqueue, FrameDriver.updateState, FrameDriver.setData,
      AndroidThread.enqueue, Caller.other]

/-! ## C30: commands and queued tasks -/

end RNGodot
